import Mathlib

/-!
# ecobee-exporter: the metric catalog and the scrape translator

A shallow embedding of `collector/collector.go`.

Modelling conventions.

* Go `float64` values are idealised as rationals (`ℚ`): the collector only
  divides by 10, subtracts 32, multiplies by 5, divides by 9, and uses the
  constants 0 and 1.
* Go `int` is `Int` (the collector does no integer arithmetic, it converts
  to `float64` at once).
* The output channel `ch` and the logger are made explicit: `Collect`
  returns the observations sent, the log entries written, and whether the
  run ended in a runtime panic.
* `strconv.ParseFloat` is a library function whose text is not part of the
  repository; it is a parameter of `Collect`, returning `some v` when the
  error is nil. Non-finite results lie outside the rational idealisation.
* `strconv.ParseInt(s, 10, 64)` is modelled on its documented behaviour:
  optional sign, ASCII digits, signed 64-bit range; Go `int` is taken to be
  64 bits wide, so `int(v)` is the identity.
* `prometheus.MustNewConstMetric` panics when the number of label values
  differs from the descriptor's number of label names; descriptors are
  taken to be valid (the prefix yields legal metric names).
* Each loop body is a function from its loop variable to the sequence of
  effects it performs; `exec` runs a sequence and stops at the first panic.
* `Collect` reads the collector's descriptors only, and nothing writes them
  after construction, so a scrape is a function of the fetch result.
* The label-name slices of the constructor are replayed in a small model of
  Go slices (backing array, length, capacity) to follow what `append` shares.
-/

namespace Ecobee

/-! ## The data source's types (fields read by the collector) -/

/-- One entry of `Weather.Forecasts`. -/
structure Forecast where
  DateTime : String
  Temperature : Int
  deriving DecidableEq, Repr

/-- The weather report of a thermostat. -/
structure Weather where
  Forecasts : List Forecast
  deriving DecidableEq, Repr

/-- The runtime block: connectivity and temperatures in tenths of a degree. -/
structure Runtime where
  Connected : Bool
  ActualTemperature : Int
  DesiredCool : Int
  DesiredHeat : Int
  deriving DecidableEq, Repr

/-- The run-duration samples of each equipment stage. -/
structure ExtendedRuntime where
  AuxHeat1 : List Int
  AuxHeat2 : List Int
  AuxHeat3 : List Int
  Cool1 : List Int
  Cool2 : List Int
  HeatPump1 : List Int
  HeatPump2 : List Int
  Fan : List Int
  deriving DecidableEq, Repr

/-- The settings block. -/
structure Settings where
  HvacMode : String
  deriving DecidableEq, Repr

/-- A capability of a remote sensor: a type tag and a string value
(`sc.Type`, `sc.Value`). -/
structure SensorCapability where
  Type_ : String
  Value : String
  deriving DecidableEq, Repr

/-- A remote sensor. -/
structure RemoteSensor where
  ID : String
  Name : String
  Type_ : String
  InUse : Bool
  Capability : List SensorCapability
  deriving DecidableEq, Repr

/-- A thermostat snapshot as returned by `GetThermostats`. -/
structure Thermostat where
  Identifier : String
  Name : String
  Runtime : Runtime
  ExtendedRuntime : ExtendedRuntime
  Settings : Settings
  Weather : Weather
  RemoteSensors : List RemoteSensor
  deriving DecidableEq, Repr

/-! ## Descriptors and the collector -/

/-- A metric descriptor (`prometheus.Desc`): name, help, label names. -/
structure Desc where
  fqName : String
  help : String
  variableLabels : List String
  deriving DecidableEq, Repr

/-- The method `descs.new`: the name is `fmt.Sprintf("%s_%s", d, fqName)`. -/
def descs.new (d : String) (fqName help : String) (variableLabels : List String) : Desc :=
  { fqName := d ++ "_" ++ fqName, help := help, variableLabels := variableLabels }

/-- The descriptor fields of `eCollector` (the API client is left out). -/
structure eCollector where
  fetchTime : Desc
  actualTemperature : Desc
  targetTemperatureMin : Desc
  targetTemperatureMax : Desc
  temperature : Desc
  humidity : Desc
  occupancy : Desc
  inUse : Desc
  currentHvacMode : Desc
  voc : Desc
  co2 : Desc
  air_quality : Desc
  air_quality_accuracy : Desc
  air_pressure : Desc
  equipmentRunning : Desc
  auxHeat1 : Desc
  auxHeat2 : Desc
  auxHeat3 : Desc
  compCool1 : Desc
  compCool2 : Desc
  heatPump1 : Desc
  heatPump2 : Desc
  fan : Desc
  outsideTempF : Desc
  outsideTemp : Desc
  deriving DecidableEq, Repr

/-- The label names `runtime` of `NewEcobeeCollector`. -/
def runtimeLabels : List String := ["thermostat_id", "thermostat_name"]

/-- The label names `sensor := append(runtime, ...)` of `NewEcobeeCollector`. -/
def sensorLabels : List String := runtimeLabels ++ ["sensor_id", "sensor_name", "sensor_type"]

/-- The constructor `NewEcobeeCollector`. -/
def NewEcobeeCollector ( metricPrefix : String) : eCollector :=
  let d := metricPrefix
  let runtime := runtimeLabels
  let sensor := sensorLabels
  { fetchTime := descs.new d "fetch_time" "elapsed time fetching data via Ecobee API" []
    actualTemperature :=
      descs.new d "actual_temperature" "thermostat-averaged current temperature" runtime
    targetTemperatureMax :=
      descs.new d "target_temperature_max" "maximum temperature for thermostat to maintain" runtime
    targetTemperatureMin :=
      descs.new d "target_temperature_min" "minimum temperature for thermostat to maintain" runtime
    temperature := descs.new d "temperature" "temperature reported by a sensor in degrees" sensor
    humidity := descs.new d "humidity" "humidity reported by a sensor in percent" sensor
    occupancy := descs.new d "occupancy" "occupancy reported by a sensor (0 or 1)" sensor
    voc := descs.new d "volitile_organic_compounds_ppm" "VOCs" sensor
    co2 := descs.new d "carbon_dioxide_ppm" "CO2" sensor
    air_quality := descs.new d "air_quality" "air quality" sensor
    air_quality_accuracy := descs.new d "air_quality_accuracy" "air quality accuracy" sensor
    air_pressure := descs.new d "air_pressure" "air pressure in ??" sensor
    inUse :=
      descs.new d "in_use" "is sensor being used in thermostat calculations (0 or 1)" sensor
    currentHvacMode :=
      descs.new d "currenthvacmode" "current hvac mode of thermostat"
        ["thermostat_id", "thermostat_name", "current_hvac_mode"]
    outsideTemp := descs.new d "outside_temperature" "current outside temperature (Celsius)" runtime
    outsideTempF :=
      descs.new d "outside_temperature_fahrenheit" "current outside temperature (Fahrenheit)"
        runtime
    equipmentRunning :=
      descs.new d "equipment_running" "equipment currently running (1 for on, 0 for off)"
        (runtime ++ ["name"])
    auxHeat1 := descs.new d "aux_heat1" "Heat stage 1" runtime
    auxHeat2 := descs.new d "aux_heat2" "Heat stage 2" runtime
    auxHeat3 := descs.new d "aux_heat3" "Heat stage 3" runtime
    compCool1 := descs.new d "comp_cool1" "Cool stage 1" runtime
    compCool2 := descs.new d "comp_cool2" "Cool stage 2" runtime
    heatPump1 := descs.new d "heat_pump1" "Heat pump stage 1" runtime
    heatPump2 := descs.new d "heat_pump2" "Heat pump stage 2" runtime
    fan := descs.new d "fan" "current hvac mode of thermostat" runtime }

/-- The method `Describe`: the descriptors sent to the channel, in order. -/
def Describe (c : eCollector) : List Desc :=
  [ c.fetchTime, c.actualTemperature, c.targetTemperatureMax, c.targetTemperatureMin,
    c.temperature, c.humidity, c.voc, c.co2, c.air_quality, c.air_quality_accuracy,
    c.air_pressure, c.occupancy, c.inUse, c.currentHvacMode, c.outsideTemp, c.outsideTempF,
    c.equipmentRunning, c.auxHeat1, c.auxHeat2, c.auxHeat3, c.compCool1, c.compCool2,
    c.heatPump1, c.heatPump2, c.fan ]

/-! ## The numeric helpers -/

/-- The function `is_thing_running`: `r` starts at 0 and is set to 1 at every
positive sample. -/
def is_thing_running (values : List Int) : ℚ :=
  values.foldl (fun r v => if v > 0 then 1 else r) 0

/-- The function `ecobee_temp_in_f`. -/
def ecobee_temp_in_f (value : Int) : ℚ :=
  (value : ℚ) / 10

/-- The function `ecobee_temp_in_c`. -/
def ecobee_temp_in_c (value : Int) : ℚ :=
  ((value : ℚ) / 10 - 32) * 5 / 9

/-! ## Library functions used by `Collect` -/

/-- The value of a string of decimal digits. -/
def digitsValue (cs : List Char) : Nat :=
  cs.foldl (fun n c => 10 * n + (c.toNat - 48)) 0

/-- The digits accepted by `strconv.ParseUint(s, 10, 64)` before any range
check: a non-empty run of ASCII digits (no underscore in an explicit base). -/
def parseDigits (cs : List Char) : Option Nat :=
  if cs ≠ [] ∧ cs.all Char.isDigit = true then some (digitsValue cs) else none

/-- The success path of `strconv.ParseInt(s, 10, 64)`: `some v` when the error
is nil, `none` otherwise (syntax error or value out of the signed 64-bit
range). -/
def ParseInt (s : String) : Option Int :=
  match s.toList with
  | [] => none
  | '+' :: cs => (parseDigits cs).bind fun n => if n < 2 ^ 63 then some (n : Int) else none
  | '-' :: cs => (parseDigits cs).bind fun n => if n ≤ 2 ^ 63 then some (-(n : Int)) else none
  | cs => (parseDigits cs).bind fun n => if n < 2 ^ 63 then some (n : Int) else none

/-- An observation sent to the channel: a gauge of a descriptor with a value
and label values. -/
structure Metric where
  desc : Desc
  value : ℚ
  labelValues : List String
  deriving DecidableEq

/-- The function `prometheus.MustNewConstMetric` for gauges: it panics
(`none`) when the number of label values differs from the descriptor's number
of label names. -/
def MustNewConstMetric (d : Desc) (value : ℚ) (labelValues : List String) : Option Metric :=
  if labelValues.length = d.variableLabels.length then
    some { desc := d, value := value, labelValues := labelValues }
  else none

/-! ## Effects of a scrape -/

/-- Log levels used by the collector. -/
inductive Level where
  | error
  | info
  deriving DecidableEq, Repr

/-- The log calls of `Collect`, one constructor per call site. -/
inductive LogEntry where
  /-- `log.Error(err)` after a failed `GetThermostats`. -/
  | fetchFailed (err : String)
  /-- `log.Infof("At %q, temp is %fC", ...)` for a forecast entry. -/
  | forecast (dateTime : String) (tempC : ℚ)
  /-- `log.Error(err)` after a failed `ParseInt`. -/
  | parseIntFailed (value : String)
  /-- `log.Error(err)` after a failed `ParseFloat`. -/
  | parseFloatFailed (value : String)
  /-- `log.Errorf("unknown sensor occupancy value %q", ...)`. -/
  | occupancyUnknown (value : String)
  /-- `log.Errorf("value [%q] was %q", sc.Type, sc.Value)`. -/
  | valueWas (type value : String)
  /-- `log.Infof("ignoring sensor capability %q", sc.Type)`. -/
  | ignoring (type : String)
  deriving DecidableEq

/-- The level of a log entry. -/
def LogEntry.level : LogEntry → Level
  | .fetchFailed _ => .error
  | .forecast _ _ => .info
  | .parseIntFailed _ => .error
  | .parseFloatFailed _ => .error
  | .occupancyUnknown _ => .error
  | .valueWas _ _ => .error
  | .ignoring _ => .info

/-- One effect of `Collect`, in program order. -/
inductive Action where
  /-- `ch <- prometheus.MustNewConstMetric(d, prometheus.GaugeValue, value, labelValues...)`. -/
  | send (d : Desc) (value : ℚ) (labelValues : List String)
  /-- A call of the logger. -/
  | log (e : LogEntry)
  /-- An index expression evaluated out of range (a runtime panic). -/
  | indexOutOfRange
  deriving DecidableEq

/-- What a run leaves behind: the observations received by the channel, the
log entries written, and whether the run ended in a panic. -/
structure Outcome where
  metrics : List Metric
  logs : List LogEntry
  panicked : Bool
  deriving DecidableEq

/-- Runs a sequence of effects; a panic ends the run and keeps what was
emitted before it. -/
def exec : List Action → Outcome
  | [] => { metrics := [], logs := [], panicked := false }
  | .send d v ls :: rest =>
    match MustNewConstMetric d v ls with
    | some m => { exec rest with metrics := m :: (exec rest).metrics }
    | none => { metrics := [], logs := [], panicked := true }
  | .log e :: rest => { exec rest with logs := e :: (exec rest).logs }
  | .indexOutOfRange :: _ => { metrics := [], logs := [], panicked := true }

/-! ## The method `Collect` -/

/-- An action that reads `fs[i]`: it panics when `i` is out of range. -/
def atIndex (fs : List Forecast) (i : Nat) (k : Forecast → Action) : Action :=
  match fs[i]? with
  | some w => k w
  | none => .indexOutOfRange

/-- The body of `if t.Runtime.Connected { ... }`. -/
def connectedActions (c : eCollector) (t : Thermostat) : List Action :=
  let tFields := [t.Identifier, t.Name]
  t.Weather.Forecasts.map
      (fun w => Action.log (.forecast w.DateTime (ecobee_temp_in_c w.Temperature))) ++
  [ .send c.actualTemperature (ecobee_temp_in_f t.Runtime.ActualTemperature) tFields,
    .send c.targetTemperatureMax (ecobee_temp_in_f t.Runtime.DesiredCool) tFields,
    .send c.targetTemperatureMin (ecobee_temp_in_f t.Runtime.DesiredHeat) tFields,
    .send c.currentHvacMode 0 [t.Identifier, t.Name, t.Settings.HvacMode],
    .send c.equipmentRunning (is_thing_running t.ExtendedRuntime.AuxHeat1) (tFields ++ ["heat 1"]),
    .send c.equipmentRunning (is_thing_running t.ExtendedRuntime.AuxHeat2) (tFields ++ ["heat 2"]),
    .send c.equipmentRunning (is_thing_running t.ExtendedRuntime.AuxHeat3) (tFields ++ ["heat 3"]),
    .send c.equipmentRunning (is_thing_running t.ExtendedRuntime.Cool1) (tFields ++ ["cooling 1"]),
    .send c.equipmentRunning (is_thing_running t.ExtendedRuntime.Cool2) (tFields ++ ["cooling 2"]),
    .send c.equipmentRunning (is_thing_running t.ExtendedRuntime.HeatPump1)
      (tFields ++ ["heat pump 1"]),
    .send c.equipmentRunning (is_thing_running t.ExtendedRuntime.HeatPump2)
      (tFields ++ ["heat pump 2"]),
    .send c.equipmentRunning (is_thing_running t.ExtendedRuntime.Fan) (tFields ++ ["fan"]),
    atIndex t.Weather.Forecasts 0
      (fun w => .send c.outsideTempF (ecobee_temp_in_f w.Temperature) tFields),
    atIndex t.Weather.Forecasts 0
      (fun w => .send c.outsideTemp (ecobee_temp_in_c w.Temperature) tFields),
    .send c.auxHeat1 (is_thing_running t.ExtendedRuntime.AuxHeat1) tFields,
    .send c.auxHeat2 (is_thing_running t.ExtendedRuntime.AuxHeat2) tFields,
    .send c.auxHeat3 (is_thing_running t.ExtendedRuntime.AuxHeat3) tFields,
    .send c.compCool1 (is_thing_running t.ExtendedRuntime.Cool1) tFields,
    .send c.compCool2 (is_thing_running t.ExtendedRuntime.Cool2) tFields,
    .send c.heatPump1 (is_thing_running t.ExtendedRuntime.HeatPump1) tFields,
    .send c.heatPump2 (is_thing_running t.ExtendedRuntime.HeatPump2) tFields,
    .send c.fan (is_thing_running t.ExtendedRuntime.Fan) tFields ]

/-- The branch shared by `vocPPM`, `co2PPM`, `airQualityAccuracy`,
`airQuality` and `airPressure`: skip `"unknown"`, else parse a float. -/
def floatOrUnknown (parseFloat : String → Option ℚ) (d : Desc) (sFields : List String)
    (sc : SensorCapability) : List Action :=
  if sc.Value = "unknown" then []
  else
    match parseFloat sc.Value with
    | some v => [.send d v sFields]
    | none => [.log (.valueWas sc.Type_ sc.Value), .log (.parseFloatFailed sc.Value)]

/-- The body of `for _, sc := range s.Capability`: the `switch sc.Type`. -/
def capabilityActions (c : eCollector) (parseFloat : String → Option ℚ)
    (sFields : List String) (sc : SensorCapability) : List Action :=
  if sc.Type_ = "temperature" then
    match ParseInt sc.Value with
    | some v => [.send c.temperature (ecobee_temp_in_f v) sFields]
    | none => [.log (.parseIntFailed sc.Value)]
  else if sc.Type_ = "humidity" then
    match parseFloat sc.Value with
    | some v => [.send c.humidity v sFields]
    | none => [.log (.parseFloatFailed sc.Value)]
  else if sc.Type_ = "occupancy" then
    if sc.Value = "true" then [.send c.occupancy 1 sFields]
    else if sc.Value = "false" then [.send c.occupancy 0 sFields]
    else [.log (.occupancyUnknown sc.Value)]
  else if sc.Type_ = "vocPPM" then floatOrUnknown parseFloat c.voc sFields sc
  else if sc.Type_ = "co2PPM" then floatOrUnknown parseFloat c.co2 sFields sc
  else if sc.Type_ = "airQualityAccuracy" then
    floatOrUnknown parseFloat c.air_quality_accuracy sFields sc
  else if sc.Type_ = "airQuality" then floatOrUnknown parseFloat c.air_quality sFields sc
  else if sc.Type_ = "airPressure" then floatOrUnknown parseFloat c.air_pressure sFields sc
  else [.log (.ignoring sc.Type_)]

/-- The body of `for _, s := range t.RemoteSensors`. -/
def sensorActions (c : eCollector) (parseFloat : String → Option ℚ)
    (tFields : List String) (s : RemoteSensor) : List Action :=
  let sFields := tFields ++ [s.ID, s.Name, s.Type_]
  .send c.inUse (if s.InUse then 1 else 0) sFields ::
    s.Capability.flatMap (capabilityActions c parseFloat sFields)

/-- The body of `for _, t := range tt`. -/
def thermostatActions (c : eCollector) (parseFloat : String → Option ℚ)
    (t : Thermostat) : List Action :=
  let tFields := [t.Identifier, t.Name]
  (if t.Runtime.Connected then connectedActions c t else []) ++
    t.RemoteSensors.flatMap (sensorActions c parseFloat tFields)

/-- The effects of `Collect` in program order; `elapsed` is the measured
fetch time in seconds, `tt` and `err` are the results of `GetThermostats`. -/
def collectActions (c : eCollector) (parseFloat : String → Option ℚ) (elapsed : ℚ)
    (tt : List Thermostat) (err : Option String) : List Action :=
  .send c.fetchTime elapsed [] ::
    match err with
    | some e => [.log (.fetchFailed e)]
    | none => tt.flatMap (thermostatActions c parseFloat)

/-- The method `Collect`. -/
def Collect (c : eCollector) (parseFloat : String → Option ℚ) (elapsed : ℚ)
    (tt : List Thermostat) (err : Option String) : Outcome :=
  exec (collectActions c parseFloat elapsed tt err)

/-- What the loop iteration of `Collect` for thermostat `t` leaves behind. -/
def collectThermostat (c : eCollector) (parseFloat : String → Option ℚ)
    (t : Thermostat) : Outcome :=
  exec (thermostatActions c parseFloat t)

/-! ## Vocabulary for the statements -/

/-- An effect that completes: a log call, or a send whose label values match
the descriptor's label names in number. -/
def Action.ok : Action → Bool
  | .send d _ ls => decide (ls.length = d.variableLabels.length)
  | .log _ => true
  | .indexOutOfRange => false

/-- The observation a send carries. -/
def Action.metric? : Action → Option Metric
  | .send d v ls => some { desc := d, value := v, labelValues := ls }
  | _ => none

/-- The entry a log call writes. -/
def Action.logEntry? : Action → Option LogEntry
  | .log e => some e
  | _ => none

/-- The index expression `t.Weather.Forecasts[0]` is in range whenever it is
evaluated, that is, whenever `t` is connected. -/
def Thermostat.indexable (t : Thermostat) : Bool :=
  !t.Runtime.Connected || !t.Weather.Forecasts.isEmpty

/-- The descriptors of the thermostat-level observations: runtime, hvac mode,
equipment and outside temperature. -/
def eCollector.thermostatDescs (c : eCollector) : List Desc :=
  [ c.actualTemperature, c.targetTemperatureMax, c.targetTemperatureMin, c.currentHvacMode,
    c.equipmentRunning, c.outsideTempF, c.outsideTemp, c.auxHeat1, c.auxHeat2, c.auxHeat3,
    c.compCool1, c.compCool2, c.heatPump1, c.heatPump2, c.fan ]

/-- The descriptors of the sensor-level observations. -/
def eCollector.sensorDescs (c : eCollector) : List Desc :=
  [ c.temperature, c.humidity, c.occupancy, c.inUse, c.voc, c.co2, c.air_quality,
    c.air_quality_accuracy, c.air_pressure ]

/-- The equipment channels of a thermostat: stage name, dedicated descriptor,
run-duration samples. -/
def equipmentChannels (c : eCollector) (t : Thermostat) : List (String × Desc × List Int) :=
  [ ("heat 1", c.auxHeat1, t.ExtendedRuntime.AuxHeat1),
    ("heat 2", c.auxHeat2, t.ExtendedRuntime.AuxHeat2),
    ("heat 3", c.auxHeat3, t.ExtendedRuntime.AuxHeat3),
    ("cooling 1", c.compCool1, t.ExtendedRuntime.Cool1),
    ("cooling 2", c.compCool2, t.ExtendedRuntime.Cool2),
    ("heat pump 1", c.heatPump1, t.ExtendedRuntime.HeatPump1),
    ("heat pump 2", c.heatPump2, t.ExtendedRuntime.HeatPump2),
    ("fan", c.fan, t.ExtendedRuntime.Fan) ]

/-- The metric-name suffixes of the catalog, in the order of `Describe`. -/
def catalogSuffixes : List String :=
  [ "fetch_time", "actual_temperature", "target_temperature_max", "target_temperature_min",
    "temperature", "humidity", "volitile_organic_compounds_ppm", "carbon_dioxide_ppm",
    "air_quality", "air_quality_accuracy", "air_pressure", "occupancy", "in_use",
    "currenthvacmode", "outside_temperature", "outside_temperature_fahrenheit",
    "equipment_running", "aux_heat1", "aux_heat2", "aux_heat3", "comp_cool1", "comp_cool2",
    "heat_pump1", "heat_pump2", "fan" ]

/-- The Celsius equivalent of a Fahrenheit temperature, `(F − 32)·5/9`. -/
def celsiusOfFahrenheit (F : ℚ) : ℚ :=
  (F - 32) * 5 / 9

/-- The observations of the connected block, given the first forecast entry. -/
def connectedMetrics (c : eCollector) (t : Thermostat) (w : Forecast) : List Metric :=
  [ ⟨c.actualTemperature, ecobee_temp_in_f t.Runtime.ActualTemperature, [t.Identifier, t.Name]⟩,
    ⟨c.targetTemperatureMax, ecobee_temp_in_f t.Runtime.DesiredCool, [t.Identifier, t.Name]⟩,
    ⟨c.targetTemperatureMin, ecobee_temp_in_f t.Runtime.DesiredHeat, [t.Identifier, t.Name]⟩,
    ⟨c.currentHvacMode, 0, [t.Identifier, t.Name, t.Settings.HvacMode]⟩,
    ⟨c.equipmentRunning, is_thing_running t.ExtendedRuntime.AuxHeat1,
      [t.Identifier, t.Name, "heat 1"]⟩,
    ⟨c.equipmentRunning, is_thing_running t.ExtendedRuntime.AuxHeat2,
      [t.Identifier, t.Name, "heat 2"]⟩,
    ⟨c.equipmentRunning, is_thing_running t.ExtendedRuntime.AuxHeat3,
      [t.Identifier, t.Name, "heat 3"]⟩,
    ⟨c.equipmentRunning, is_thing_running t.ExtendedRuntime.Cool1,
      [t.Identifier, t.Name, "cooling 1"]⟩,
    ⟨c.equipmentRunning, is_thing_running t.ExtendedRuntime.Cool2,
      [t.Identifier, t.Name, "cooling 2"]⟩,
    ⟨c.equipmentRunning, is_thing_running t.ExtendedRuntime.HeatPump1,
      [t.Identifier, t.Name, "heat pump 1"]⟩,
    ⟨c.equipmentRunning, is_thing_running t.ExtendedRuntime.HeatPump2,
      [t.Identifier, t.Name, "heat pump 2"]⟩,
    ⟨c.equipmentRunning, is_thing_running t.ExtendedRuntime.Fan, [t.Identifier, t.Name, "fan"]⟩,
    ⟨c.outsideTempF, ecobee_temp_in_f w.Temperature, [t.Identifier, t.Name]⟩,
    ⟨c.outsideTemp, ecobee_temp_in_c w.Temperature, [t.Identifier, t.Name]⟩,
    ⟨c.auxHeat1, is_thing_running t.ExtendedRuntime.AuxHeat1, [t.Identifier, t.Name]⟩,
    ⟨c.auxHeat2, is_thing_running t.ExtendedRuntime.AuxHeat2, [t.Identifier, t.Name]⟩,
    ⟨c.auxHeat3, is_thing_running t.ExtendedRuntime.AuxHeat3, [t.Identifier, t.Name]⟩,
    ⟨c.compCool1, is_thing_running t.ExtendedRuntime.Cool1, [t.Identifier, t.Name]⟩,
    ⟨c.compCool2, is_thing_running t.ExtendedRuntime.Cool2, [t.Identifier, t.Name]⟩,
    ⟨c.heatPump1, is_thing_running t.ExtendedRuntime.HeatPump1, [t.Identifier, t.Name]⟩,
    ⟨c.heatPump2, is_thing_running t.ExtendedRuntime.HeatPump2, [t.Identifier, t.Name]⟩,
    ⟨c.fan, is_thing_running t.ExtendedRuntime.Fan, [t.Identifier, t.Name]⟩ ]

/-- The observations of the sensor loop of a thermostat, read off the sends. -/
def sensorMetrics (c : eCollector) (parseFloat : String → Option ℚ) (t : Thermostat) :
    List Metric :=
  (t.RemoteSensors.flatMap (sensorActions c parseFloat [t.Identifier, t.Name])).filterMap
    Action.metric?

/-- The eight capability type tags that `Collect` handles. -/
def recognisedTypes : List String :=
  [ "temperature", "humidity", "occupancy", "vocPPM", "co2PPM", "airQualityAccuracy",
    "airQuality", "airPressure" ]

/-- The float-valued capability types with their descriptors. -/
def floatCapabilities (c : eCollector) : List (String × Desc) :=
  [ ("humidity", c.humidity), ("vocPPM", c.voc), ("co2PPM", c.co2),
    ("airQualityAccuracy", c.air_quality_accuracy), ("airQuality", c.air_quality),
    ("airPressure", c.air_pressure) ]

/-- The observations of a capability list of a sensor with label values
`sFields`, as left by running the capability loop. -/
def capabilityMetrics (c : eCollector) (parseFloat : String → Option ℚ)
    (sFields : List String) (xs : List SensorCapability) : List Metric :=
  (exec (xs.flatMap (capabilityActions c parseFloat sFields))).metrics

/-- The value of a base-10 integer literal: an optional sign followed by one
or more decimal digits, the number lying in the signed 64-bit range; `none`
for every other string. -/
def intLiteral? (s : String) : Option Int :=
  let cs := s.toList
  let signed := cs.head? = some '+' ∨ cs.head? = some '-'
  let ds := if signed then cs.tail else cs
  if ds = [] ∨ ds.any (fun c => !c.isDigit) then none
  else
    let n : Nat := Nat.ofDigits 10 (ds.reverse.map fun c => c.toNat - '0'.toNat)
    let v : Int := if cs.head? = some '-' then -(n : Int) else n
    if -(2 : Int) ^ 63 ≤ v ∧ v < 2 ^ 63 then some v else none

/-- The number of `in_use` observations in a list of observations. -/
def inUseCount (c : eCollector) (ms : List Metric) : Nat :=
  (ms.filter (fun m => decide (m.desc = c.inUse))).length

/-- The number of remote sensors of a response. -/
def sensorCount (tt : List Thermostat) : Nat :=
  (tt.map (fun t => t.RemoteSensors.length)).sum

/-- An effect that raises no label-count panic: anything but a send whose
number of label values differs from the descriptor's number of label names. -/
def Action.arityOk : Action → Bool
  | .send d _ ls => decide (ls.length = d.variableLabels.length)
  | _ => true

/-- Go slice memory: the backing arrays, in allocation order. -/
abbrev GoHeap := List (List String)

/-- A Go slice of strings that starts at the beginning of its backing array:
the array, the length and the capacity. -/
structure GoSlice where
  array : Nat
  len : Nat
  cap : Nat
  deriving DecidableEq, Repr

/-- The elements of a slice. -/
def GoSlice.elems (h : GoHeap) (s : GoSlice) : List String :=
  (h.getD s.array []).take s.len

/-- The composite literal `[]string{...}`: a fresh array; length and capacity
are the number of elements. -/
def goLiteral (h : GoHeap) (xs : List String) : GoHeap × GoSlice :=
  (h ++ [xs], { array := h.length, len := xs.length, cap := xs.length })

/-- The built-in `append(s, xs...)`: when the capacity suffices the elements
are written into the backing array of `s`, which every other slice of that
array sees; otherwise a fresh array receives the elements of `s` and `xs`. -/
def goAppend (h : GoHeap) (s : GoSlice) (xs : List String) : GoHeap × GoSlice :=
  if s.len + xs.length ≤ s.cap then
    (h.set s.array
        ((h.getD s.array []).take s.len ++ xs ++ (h.getD s.array []).drop (s.len + xs.length)),
      { s with len := s.len + xs.length })
  else
    (h ++ [s.elems h ++ xs ++
        List.replicate (max (2 * s.cap) (s.len + xs.length) - (s.len + xs.length)) ""],
      { array := h.length, len := s.len + xs.length,
        cap := max (2 * s.cap) (s.len + xs.length) })

/-- The label-name slices of `NewEcobeeCollector` in evaluation order:
`runtime`, `sensor := append(runtime, ...)` and `append(runtime, "name")`;
the result is the final memory with the three slices. -/
def constructorLabelSlices : GoHeap × GoSlice × GoSlice × GoSlice :=
  let r := goLiteral [] ["thermostat_id", "thermostat_name"]
  let s := goAppend r.1 r.2 ["sensor_id", "sensor_name", "sensor_type"]
  let e := goAppend s.1 r.2 ["name"]
  (e.1, r.2, s.2, e.2)


/-- An observation whose first two label values are the identifier and the
name of thermostat `t`. -/
def labelledBy (t : Thermostat) (m : Metric) : Bool :=
  decide (m.labelValues.take 2 = [t.Identifier, t.Name])

/-- The response `pre ++ t' :: post` in which `t'` is `t` with the remote
sensors `spre ++ s' :: spost` and `s'` is `s` with the capabilities `caps`. -/
def responseAt (pre : List Thermostat) (t : Thermostat) (post : List Thermostat)
    (spre : List RemoteSensor) (s : RemoteSensor) (spost : List RemoteSensor)
    (caps : List SensorCapability) : List Thermostat :=
  pre ++ { t with RemoteSensors := spre ++ { s with Capability := caps } :: spost } :: post

/-! ## Sample inputs -/

/-- A float parser that reads integer literals only; it stands in for
`strconv.ParseFloat` at the sample inputs. -/
def parseFloatIntegral (s : String) : Option ℚ :=
  (ParseInt s).map fun v => (v : ℚ)

/-- A remote sensor with one capability of each handled kind. -/
def sampleSensor : RemoteSensor :=
  { ID := "rs:100"
    Name := "Bedroom"
    Type_ := "ecobee3_remote_sensor"
    InUse := true
    Capability :=
      [ { Type_ := "temperature", Value := "712" },
        { Type_ := "occupancy", Value := "maybe" },
        { Type_ := "co2PPM", Value := "unknown" },
        { Type_ := "humidity", Value := "45" } ] }

/-- A connected thermostat whose forecast list is empty. -/
def sampleNoForecast : Thermostat :=
  { Identifier := "411"
    Name := "Home"
    Runtime := { Connected := true, ActualTemperature := 705, DesiredCool := 750, DesiredHeat := 680 }
    ExtendedRuntime :=
      { AuxHeat1 := [0, 3], AuxHeat2 := [], AuxHeat3 := [], Cool1 := [0, 0], Cool2 := [],
        HeatPump1 := [], HeatPump2 := [], Fan := [15, 0] }
    Settings := { HvacMode := "heat" }
    Weather := { Forecasts := [] }
    RemoteSensors := [sampleSensor] }

/-- A connected thermostat with two forecast entries. -/
def sampleConnected : Thermostat :=
  { sampleNoForecast with
    Weather := { Forecasts := [{ DateTime := "2024-01-01 12:00:00", Temperature := 500 },
                               { DateTime := "2024-01-01 18:00:00", Temperature := 410 }] } }

/-- A disconnected thermostat with one remote sensor. -/
def sampleDisconnected : Thermostat :=
  { Identifier := "522"
    Name := "Cabin"
    Runtime := { Connected := false, ActualTemperature := 0, DesiredCool := 0, DesiredHeat := 0 }
    ExtendedRuntime :=
      { AuxHeat1 := [], AuxHeat2 := [], AuxHeat3 := [], Cool1 := [], Cool2 := [],
        HeatPump1 := [], HeatPump2 := [], Fan := [] }
    Settings := { HvacMode := "off" }
    Weather := { Forecasts := [] }
    RemoteSensors := [{ sampleSensor with ID := "rs:200", InUse := false }] }

/-- A disconnected thermostat that has a forecast and one remote sensor. -/
def sampleDisconnectedForecast : Thermostat :=
  { sampleDisconnected with
    Weather := { Forecasts := [{ DateTime := "2024-01-01 12:00:00", Temperature := 320 }] } }

/-- A connected thermostat with a forecast, of another identity than the
other samples. -/
def sampleOffice : Thermostat :=
  { sampleConnected with Identifier := "633", Name := "Office" }

/-! ## Running effect sequences -/

theorem exec_of_ok (as : List Action) (h : ∀ a ∈ as, a.ok = true) :
    exec as = { metrics := as.filterMap Action.metric?, logs := as.filterMap Action.logEntry?,
                panicked := false } := by
  induction as with
  | nil => rfl
  | cons a rest ih =>
    have hr := ih (fun b hb => h b (List.mem_cons_of_mem _ hb))
    have ha := h a (List.mem_cons_self _ _)
    cases a with
    | send d v ls =>
      have hl : ls.length = d.variableLabels.length := by simpa [Action.ok] using ha
      simp [exec, MustNewConstMetric, hl, hr, Action.metric?, Action.logEntry?]
    | log e => simp [exec, hr, Action.metric?, Action.logEntry?]
    | indexOutOfRange => simp [Action.ok] at ha

theorem exec_ok_append (as bs : List Action) (h : ∀ a ∈ as, a.ok = true) :
    exec (as ++ bs) = { metrics := as.filterMap Action.metric? ++ (exec bs).metrics,
                        logs := as.filterMap Action.logEntry? ++ (exec bs).logs,
                        panicked := (exec bs).panicked } := by
  induction as with
  | nil => rfl
  | cons a rest ih =>
    have hr := ih (fun b hb => h b (List.mem_cons_of_mem _ hb))
    have ha := h a (List.mem_cons_self _ _)
    cases a with
    | send d v ls =>
      have hl : ls.length = d.variableLabels.length := by simpa [Action.ok] using ha
      simp [exec, MustNewConstMetric, hl, hr, Action.metric?, Action.logEntry?]
    | log e => simp [exec, hr, Action.metric?, Action.logEntry?]
    | indexOutOfRange => simp [Action.ok] at ha

theorem append_left_cancel_string (p a b : String) : p ++ a = p ++ b ↔ a = b := by
  constructor
  · intro h
    have h2 := congrArg String.data h
    simp only [String.data_append] at h2
    exact String.ext (List.append_cancel_left h2)
  · rintro rfl; rfl

theorem descs_new_eq_iff (p a b h1 h2 : String) (l1 l2 : List String) :
    descs.new p a h1 l1 = descs.new p b h2 l2 ↔ a = b ∧ h1 = h2 ∧ l1 = l2 := by
  simp [descs.new, append_left_cancel_string]


theorem capabilityActions_ok (p : String) (pf : String → Option ℚ) (sFields : List String)
    (hs : sFields.length = 5) (sc : SensorCapability) :
    ∀ a ∈ capabilityActions (NewEcobeeCollector p) pf sFields sc, a.ok = true := by
  rw [← List.all_eq_true]
  simp only [capabilityActions, floatOrUnknown]
  split_ifs <;> (try split) <;>
    simp [Action.ok, NewEcobeeCollector, descs.new, sensorLabels, runtimeLabels, hs]

theorem sensorActions_ok (p : String) (pf : String → Option ℚ) (tFields : List String)
    (ht : tFields.length = 2) (s : RemoteSensor) :
    ∀ a ∈ sensorActions (NewEcobeeCollector p) pf tFields s, a.ok = true := by
  intro a ha
  simp only [sensorActions, List.mem_cons, List.mem_flatMap] at ha
  rcases ha with rfl | ⟨sc, -, hsc⟩
  · simp [Action.ok, NewEcobeeCollector, descs.new, sensorLabels, runtimeLabels, ht]
  · exact capabilityActions_ok p pf _ (by simp [ht]) sc a hsc

theorem sensorsActions_ok (p : String) (pf : String → Option ℚ) (tFields : List String)
    (ht : tFields.length = 2) (ss : List RemoteSensor) :
    ∀ a ∈ ss.flatMap (sensorActions (NewEcobeeCollector p) pf tFields), a.ok = true := by
  intro a ha
  rcases List.mem_flatMap.1 ha with ⟨s, -, hs⟩
  exact sensorActions_ok p pf tFields ht s a hs

theorem connectedActions_ok (p : String) (t : Thermostat) (h : t.Weather.Forecasts ≠ []) :
    ∀ a ∈ connectedActions (NewEcobeeCollector p) t, a.ok = true := by
  intro a ha
  cases hf : t.Weather.Forecasts with
  | nil => exact absurd hf h
  | cons w ws =>
    simp only [connectedActions, hf, atIndex, List.mem_append, List.mem_map, List.mem_cons] at ha
    rcases ha with ⟨w, -, rfl⟩ | ha
    · rfl
    · simp at ha
      rcases ha with ha | ha | ha | ha | ha | ha | ha | ha | ha | ha | ha | ha | ha | ha | ha | ha | ha | ha | ha | ha | ha | ha <;>
        subst ha <;> rfl

theorem exec_append (as bs : List Action) :
    exec (as ++ bs) =
      if (exec as).panicked = true then exec as
      else { metrics := (exec as).metrics ++ (exec bs).metrics,
             logs := (exec as).logs ++ (exec bs).logs,
             panicked := (exec bs).panicked } := by
  induction as with
  | nil => simp [exec]
  | cons a rest ih =>
    rw [List.cons_append]
    cases a with
    | send d v ls =>
      rw [exec, exec]
      cases hm : MustNewConstMetric d v ls with
      | none => simp
      | some m =>
        simp only [ih]
        split_ifs <;> simp
    | log e =>
      rw [exec, exec]
      simp only [ih]
      split_ifs <;> simp
    | indexOutOfRange => simp [exec]

theorem thermostatActions_ok (p : String) (pf : String → Option ℚ) (t : Thermostat)
    (h : t.indexable = true) :
    ∀ a ∈ thermostatActions (NewEcobeeCollector p) pf t, a.ok = true := by
  intro a ha
  simp only [thermostatActions, List.mem_append] at ha
  rcases ha with ha | ha
  · split_ifs at ha with hc
    · refine connectedActions_ok p t ?_ a ha
      intro hf
      simp [Thermostat.indexable, hc, hf] at h
    · simp at ha
  · exact sensorsActions_ok p pf [t.Identifier, t.Name] rfl _ a ha

theorem thermostatsActions_ok (p : String) (pf : String → Option ℚ) (tt : List Thermostat)
    (h : ∀ t ∈ tt, t.indexable = true) :
    ∀ a ∈ tt.flatMap (thermostatActions (NewEcobeeCollector p) pf), a.ok = true := by
  intro a ha
  rcases List.mem_flatMap.1 ha with ⟨t, ht, hat⟩
  exact thermostatActions_ok p pf t (h t ht) a hat

theorem collectThermostat_panicked (p : String) (pf : String → Option ℚ) (t : Thermostat) :
    (collectThermostat (NewEcobeeCollector p) pf t).panicked = !t.indexable := by
  cases hi : t.indexable with
  | true =>
    rw [collectThermostat, exec_of_ok _ (thermostatActions_ok p pf t hi)]
    rfl
  | false =>
    have hc : t.Runtime.Connected = true := by
      cases hcc : t.Runtime.Connected <;> simp [Thermostat.indexable, hcc] at hi ⊢
    have hf : t.Weather.Forecasts = [] := by
      cases hff : t.Weather.Forecasts <;> simp [Thermostat.indexable, hc, hff] at hi ⊢
    simp [collectThermostat, thermostatActions, hc, connectedActions, hf, atIndex, exec,
      MustNewConstMetric, NewEcobeeCollector, descs.new, runtimeLabels]

theorem Collect_after_ok (p : String) (pf : String → Option ℚ) (elapsed : ℚ)
    (pre rest : List Thermostat) (h : ∀ u ∈ pre, u.indexable = true) :
    Collect (NewEcobeeCollector p) pf elapsed (pre ++ rest) none =
      { metrics := (Collect (NewEcobeeCollector p) pf elapsed pre none).metrics ++
          (exec (rest.flatMap (thermostatActions (NewEcobeeCollector p) pf))).metrics,
        logs := (Collect (NewEcobeeCollector p) pf elapsed pre none).logs ++
          (exec (rest.flatMap (thermostatActions (NewEcobeeCollector p) pf))).logs,
        panicked := (exec (rest.flatMap (thermostatActions (NewEcobeeCollector p) pf))).panicked } := by
  have hf : ∀ a ∈ Action.send (NewEcobeeCollector p).fetchTime elapsed [] ::
      pre.flatMap (thermostatActions (NewEcobeeCollector p) pf), a.ok = true := by
    intro a ha
    rcases List.mem_cons.1 ha with rfl | ha
    · rfl
    · exact thermostatsActions_ok p pf pre h a ha
  have h1 : collectActions (NewEcobeeCollector p) pf elapsed (pre ++ rest) none =
      (Action.send (NewEcobeeCollector p).fetchTime elapsed [] ::
        pre.flatMap (thermostatActions (NewEcobeeCollector p) pf)) ++
      rest.flatMap (thermostatActions (NewEcobeeCollector p) pf) := by
    simp [collectActions, List.flatMap_append]
  have h2 : collectActions (NewEcobeeCollector p) pf elapsed pre none =
      Action.send (NewEcobeeCollector p).fetchTime elapsed [] ::
        pre.flatMap (thermostatActions (NewEcobeeCollector p) pf) := rfl
  rw [Collect, Collect, h1, h2, exec_ok_append _ _ hf, exec_of_ok _ hf]

theorem Collect_segment (p : String) (pf : String → Option ℚ) (elapsed : ℚ)
    (pre post : List Thermostat) (t : Thermostat) (h : ∀ u ∈ pre, u.indexable = true) :
    (Collect (NewEcobeeCollector p) pf elapsed (pre ++ t :: post) none).metrics =
      (Collect (NewEcobeeCollector p) pf elapsed pre none).metrics ++
        (collectThermostat (NewEcobeeCollector p) pf t).metrics ++
        (if (collectThermostat (NewEcobeeCollector p) pf t).panicked = true then []
         else (exec (post.flatMap (thermostatActions (NewEcobeeCollector p) pf))).metrics) := by
  rw [Collect_after_ok p pf elapsed pre (t :: post) h]
  simp only [List.flatMap_cons, exec_append, collectThermostat]
  split_ifs <;> simp

theorem Collect_panicked_iff (p : String) (pf : String → Option ℚ) (elapsed : ℚ)
    (tt : List Thermostat) :
    (Collect (NewEcobeeCollector p) pf elapsed tt none).panicked = true ↔
      ∃ t ∈ tt, t.indexable = false := by
  have key : ∀ l : List Thermostat,
      (exec (l.flatMap (thermostatActions (NewEcobeeCollector p) pf))).panicked = true ↔
        ∃ t ∈ l, t.indexable = false := by
    intro l
    induction l with
    | nil => simp [exec]
    | cons t rest ih =>
      have ht := collectThermostat_panicked p pf t
      rw [collectThermostat] at ht
      rw [List.flatMap_cons, exec_append]
      cases hi : t.indexable <;> simp [ht, hi, ih]
  have := Collect_after_ok p pf elapsed [] tt (by simp)
  simp only [List.nil_append] at this
  rw [this]
  exact key tt

theorem connectedActions_metrics (c : eCollector) (t : Thermostat) (w : Forecast)
    (ws : List Forecast) (hf : t.Weather.Forecasts = w :: ws) :
    (connectedActions c t).filterMap Action.metric? = connectedMetrics c t w := by
  have hlog : ∀ l : List Forecast,
      (l.map (fun w => Action.log (.forecast w.DateTime (ecobee_temp_in_c w.Temperature)))).filterMap
        Action.metric? = [] := by
    intro l
    induction l with
    | nil => rfl
    | cons a l ih => simp [Action.metric?]
  simp only [connectedActions, List.filterMap_append, hlog, hf, atIndex]
  simp [Action.metric?, connectedMetrics]

theorem collectThermostat_connected (p : String) (pf : String → Option ℚ) (t : Thermostat)
    (w : Forecast) (ws : List Forecast) (hc : t.Runtime.Connected = true)
    (hf : t.Weather.Forecasts = w :: ws) :
    (collectThermostat (NewEcobeeCollector p) pf t).metrics =
      connectedMetrics (NewEcobeeCollector p) t w ++ sensorMetrics (NewEcobeeCollector p) pf t := by
  have hi : t.indexable = true := by simp [Thermostat.indexable, hf]
  rw [collectThermostat, exec_of_ok _ (thermostatActions_ok p pf t hi)]
  simp only [thermostatActions, hc, if_true, List.filterMap_append,
    connectedActions_metrics _ t w ws hf, sensorMetrics]

theorem collectThermostat_disconnected (p : String) (pf : String → Option ℚ) (t : Thermostat)
    (hc : t.Runtime.Connected = false) :
    collectThermostat (NewEcobeeCollector p) pf t =
      { metrics := sensorMetrics (NewEcobeeCollector p) pf t,
        logs := (t.RemoteSensors.flatMap
          (sensorActions (NewEcobeeCollector p) pf [t.Identifier, t.Name])).filterMap
            Action.logEntry?,
        panicked := false } := by
  have hi : t.indexable = true := by simp [Thermostat.indexable, hc]
  rw [collectThermostat, exec_of_ok _ (thermostatActions_ok p pf t hi)]
  simp [thermostatActions, hc, sensorMetrics]

theorem floatOrUnknown_desc (pf : String → Option ℚ) (d : Desc) (sFields : List String)
    (sc : SensorCapability) :
    ∀ m ∈ (floatOrUnknown pf d sFields sc).filterMap Action.metric?,
      m.desc = d ∧ m.labelValues = sFields := by
  intro m hm
  unfold floatOrUnknown at hm
  split_ifs at hm
  · simp at hm
  · cases hp : pf sc.Value with
    | none => simp [hp, Action.metric?] at hm
    | some v =>
      simp only [hp, List.filterMap_cons, Action.metric?, List.filterMap_nil,
        List.mem_singleton] at hm
      subst hm
      exact ⟨rfl, rfl⟩

theorem capabilityActions_desc (c : eCollector) (pf : String → Option ℚ) (sFields : List String)
    (sc : SensorCapability) :
    ∀ m ∈ (capabilityActions c pf sFields sc).filterMap Action.metric?,
      m.desc ∈ c.sensorDescs ∧ m.labelValues = sFields := by
  intro m hm
  unfold capabilityActions at hm
  split_ifs at hm
  · cases hp : ParseInt sc.Value with
    | none => simp [hp, Action.metric?] at hm
    | some v =>
      simp only [hp, List.filterMap_cons, Action.metric?, List.filterMap_nil,
        List.mem_singleton] at hm
      subst hm
      exact ⟨by simp [eCollector.sensorDescs], rfl⟩
  · cases hp : pf sc.Value with
    | none => simp [hp, Action.metric?] at hm
    | some v =>
      simp only [hp, List.filterMap_cons, Action.metric?, List.filterMap_nil,
        List.mem_singleton] at hm
      subst hm
      exact ⟨by simp [eCollector.sensorDescs], rfl⟩
  · simp only [List.filterMap_cons, Action.metric?, List.filterMap_nil,
      List.mem_singleton] at hm
    subst hm
    exact ⟨by simp [eCollector.sensorDescs], rfl⟩
  · simp only [List.filterMap_cons, Action.metric?, List.filterMap_nil,
      List.mem_singleton] at hm
    subst hm
    exact ⟨by simp [eCollector.sensorDescs], rfl⟩
  · simp [Action.metric?] at hm
  all_goals
    first
    | (have h := floatOrUnknown_desc pf _ sFields sc m hm
       exact ⟨by rw [h.1]; simp [eCollector.sensorDescs], h.2⟩)
    | simp [Action.metric?] at hm

theorem sensorMetrics_desc (c : eCollector) (pf : String → Option ℚ) (t : Thermostat) :
    ∀ m ∈ sensorMetrics c pf t, m.desc ∈ c.sensorDescs := by
  intro m hm
  simp only [sensorMetrics, List.mem_filterMap, List.mem_flatMap, sensorActions,
    List.mem_cons] at hm
  rcases hm with ⟨a, ⟨s, -, rfl | ⟨sc, -, ha⟩⟩, hma⟩
  · simp only [Action.metric?, Option.some.injEq] at hma
    subst hma
    simp [eCollector.sensorDescs]
  · exact (capabilityActions_desc c pf _ sc m (List.mem_filterMap.2 ⟨a, ha, hma⟩)).1

theorem sensorDescs_labels (p : String) :
    ∀ d ∈ (NewEcobeeCollector p).sensorDescs, d.variableLabels = sensorLabels := by
  intro d hd
  simp only [eCollector.sensorDescs, List.mem_cons, List.mem_singleton, List.not_mem_nil,
    or_false] at hd
  rcases hd with h | h | h | h | h | h | h | h | h <;> subst h <;> rfl

theorem thermostatDescs_labels (p : String) :
    ∀ d ∈ (NewEcobeeCollector p).thermostatDescs, d.variableLabels ≠ sensorLabels := by
  intro d hd
  simp only [eCollector.thermostatDescs, List.mem_cons, List.mem_singleton, List.not_mem_nil,
    or_false] at hd
  rcases hd with h | h | h | h | h | h | h | h | h | h | h | h | h | h | h <;> subst h <;>
    simp [NewEcobeeCollector, descs.new, sensorLabels, runtimeLabels]

theorem inUse_mem_sensorMetrics (c : eCollector) (pf : String → Option ℚ) (t : Thermostat)
    (s : RemoteSensor) (hs : s ∈ t.RemoteSensors) :
    ({ desc := c.inUse, value := if s.InUse then 1 else 0,
       labelValues := [t.Identifier, t.Name, s.ID, s.Name, s.Type_] } : Metric) ∈
      sensorMetrics c pf t := by
  simp only [sensorMetrics, List.mem_filterMap, List.mem_flatMap]
  exact ⟨_, ⟨s, hs, List.mem_cons_self _ _⟩, rfl⟩

/-! ## Auxiliary facts -/

theorem is_thing_running_foldl (xs : List Int) (r : ℚ) :
    xs.foldl (fun r v => if v > 0 then (1 : ℚ) else r) r = if ∃ x ∈ xs, 0 < x then 1 else r := by
  induction xs generalizing r with
  | nil => simp
  | cons x rest ih =>
    rw [List.foldl_cons, ih]
    by_cases hx : 0 < x
    · simp [hx]
    · simp [hx]

theorem is_thing_running_eq (xs : List Int) :
    is_thing_running xs = if ∃ x ∈ xs, 0 < x then 1 else 0 :=
  is_thing_running_foldl xs 0

theorem catalogSuffixes_nodup : catalogSuffixes.Nodup := by decide

theorem sensorMetrics_filter_nil (p : String) (pf : String → Option ℚ) (t : Thermostat)
    (q : Metric → Bool) (hq : ∀ m, q m = true → m.desc ∈ (NewEcobeeCollector p).thermostatDescs) :
    (sensorMetrics (NewEcobeeCollector p) pf t).filter q = [] := by
  rw [List.filter_eq_nil_iff]
  intro m hm hqm
  exact thermostatDescs_labels p _ (hq m hqm)
    (sensorDescs_labels p _ (sensorMetrics_desc _ pf t m hm))

theorem exec_metrics_mem (as : List Action) :
    ∀ m ∈ (exec as).metrics, ∃ a ∈ as, a.metric? = some m ∧ a.ok = true := by
  induction as with
  | nil => intro m hm; simp [exec] at hm
  | cons a rest ih =>
    intro m hm
    cases a with
    | send d v ls =>
      rw [exec] at hm
      by_cases hl : ls.length = d.variableLabels.length
      · simp only [MustNewConstMetric, hl, if_true, List.mem_cons] at hm
        rcases hm with rfl | hm
        · exact ⟨_, List.mem_cons_self _ _, rfl, by simp [Action.ok, hl]⟩
        · obtain ⟨b, hb, h1, h2⟩ := ih m hm
          exact ⟨b, List.mem_cons_of_mem _ hb, h1, h2⟩
      · simp [MustNewConstMetric, hl] at hm
    | log e =>
      rw [exec] at hm
      obtain ⟨b, hb, h1, h2⟩ := ih m hm
      exact ⟨b, List.mem_cons_of_mem _ hb, h1, h2⟩
    | indexOutOfRange => simp [exec] at hm

theorem connectedActions_sends (c : eCollector) (t : Thermostat) :
    ∀ a ∈ connectedActions c t, ∀ m, a.metric? = some m →
      m.desc ∈ c.thermostatDescs ∧ m.labelValues.take 2 = [t.Identifier, t.Name] := by
  intro a ha m hm
  simp only [connectedActions, List.mem_append, List.mem_map, List.mem_cons,
    List.mem_singleton, List.not_mem_nil, or_false] at ha
  rcases ha with ⟨w, -, rfl⟩ | ha
  · simp [Action.metric?] at hm
  · cases hfc : t.Weather.Forecasts with
    | nil =>
      simp only [hfc, atIndex] at ha
      rcases ha with h | h | h | h | h | h | h | h | h | h | h | h | h | h | h | h | h | h | h
        | h | h | h <;> subst h <;>
        simp [Action.metric?] at hm <;> subst hm <;> simp [eCollector.thermostatDescs]
    | cons w ws =>
      simp only [hfc, atIndex] at ha
      rcases ha with h | h | h | h | h | h | h | h | h | h | h | h | h | h | h | h | h | h | h
        | h | h | h <;> subst h <;>
        simp [Action.metric?] at hm <;> subst hm <;> simp [eCollector.thermostatDescs]

theorem thermostatActions_sends (c : eCollector) (pf : String → Option ℚ) (t : Thermostat) :
    ∀ a ∈ thermostatActions c pf t, ∀ m, a.metric? = some m →
      (m.desc ∈ c.thermostatDescs ∨ m.desc ∈ c.sensorDescs) ∧
      m.labelValues.take 2 = [t.Identifier, t.Name] := by
  intro a ha m hm
  simp only [thermostatActions, List.mem_append] at ha
  rcases ha with ha | ha
  · split_ifs at ha
    · have := connectedActions_sends c t a ha m hm
      exact ⟨Or.inl this.1, this.2⟩
    · simp at ha
  · simp only [List.mem_flatMap, sensorActions, List.mem_cons] at ha
    rcases ha with ⟨s, -, rfl | ⟨sc, -, hsc⟩⟩
    · simp only [Action.metric?, Option.some.injEq] at hm
      subst hm
      simp [eCollector.sensorDescs]
    · have := capabilityActions_desc c pf _ sc m (List.mem_filterMap.2 ⟨a, hsc, hm⟩)
      refine ⟨Or.inr this.1, ?_⟩
      rw [this.2]
      rfl

theorem fetchTime_not_mem (p : String) :
    (NewEcobeeCollector p).fetchTime ∉ (NewEcobeeCollector p).thermostatDescs ∧
    (NewEcobeeCollector p).fetchTime ∉ (NewEcobeeCollector p).sensorDescs := by
  constructor <;>
    simp [eCollector.thermostatDescs, eCollector.sensorDescs, NewEcobeeCollector,
      descs_new_eq_iff]

theorem Collect_metrics_cons (p : String) (pf : String → Option ℚ) (elapsed : ℚ)
    (tt : List Thermostat) :
    Collect (NewEcobeeCollector p) pf elapsed tt none =
      { exec (tt.flatMap (thermostatActions (NewEcobeeCollector p) pf)) with
        metrics := { desc := (NewEcobeeCollector p).fetchTime, value := elapsed,
                     labelValues := [] } ::
          (exec (tt.flatMap (thermostatActions (NewEcobeeCollector p) pf))).metrics } := by
  simp [Collect, collectActions, exec, MustNewConstMetric, NewEcobeeCollector, descs.new]

theorem Collect_tail_mem (p : String) (pf : String → Option ℚ) (tt : List Thermostat) :
    ∀ m ∈ (exec (tt.flatMap (thermostatActions (NewEcobeeCollector p) pf))).metrics,
      ∃ t ∈ tt, (m.desc ∈ (NewEcobeeCollector p).thermostatDescs ∨
          m.desc ∈ (NewEcobeeCollector p).sensorDescs) ∧
        m.labelValues.take 2 = [t.Identifier, t.Name] := by
  intro m hm
  obtain ⟨a, ha, h1, -⟩ := exec_metrics_mem _ m hm
  obtain ⟨t, ht, hat⟩ := List.mem_flatMap.1 ha
  exact ⟨t, ht, thermostatActions_sends _ pf t a hat m h1⟩

theorem exec_capabilities (p : String) (pf : String → Option ℚ) (sFields : List String)
    (hs : sFields.length = 5) (xs : List SensorCapability) :
    exec (xs.flatMap (capabilityActions (NewEcobeeCollector p) pf sFields)) =
      { metrics := (xs.flatMap (capabilityActions (NewEcobeeCollector p) pf sFields)).filterMap
          Action.metric?,
        logs := (xs.flatMap (capabilityActions (NewEcobeeCollector p) pf sFields)).filterMap
          Action.logEntry?,
        panicked := false } := by
  apply exec_of_ok
  intro a ha
  obtain ⟨sc, -, hsc⟩ := List.mem_flatMap.1 ha
  exact capabilityActions_ok p pf sFields hs sc a hsc

theorem capabilityMetrics_append (p : String) (pf : String → Option ℚ) (sFields : List String)
    (hs : sFields.length = 5) (xs ys : List SensorCapability) :
    capabilityMetrics (NewEcobeeCollector p) pf sFields (xs ++ ys) =
      capabilityMetrics (NewEcobeeCollector p) pf sFields xs ++
        capabilityMetrics (NewEcobeeCollector p) pf sFields ys := by
  rw [capabilityMetrics, capabilityMetrics, capabilityMetrics,
    exec_capabilities p pf sFields hs (xs ++ ys), exec_capabilities p pf sFields hs xs,
    exec_capabilities p pf sFields hs ys]
  simp [List.flatMap_append]

theorem capabilityMetrics_single (c : eCollector) (pf : String → Option ℚ)
    (sFields : List String) (sc : SensorCapability) :
    capabilityMetrics c pf sFields [sc] = (exec (capabilityActions c pf sFields sc)).metrics := by
  simp [capabilityMetrics]

theorem capabilityActions_sends_le (c : eCollector) (pf : String → Option ℚ)
    (sFields : List String) (sc : SensorCapability) :
    ((capabilityActions c pf sFields sc).filterMap Action.metric?).length ≤ 1 := by
  simp only [capabilityActions, floatOrUnknown]
  split_ifs <;> (try split) <;> simp [Action.metric?]

theorem exec_metrics_length_le (as : List Action) :
    (exec as).metrics.length ≤ (as.filterMap Action.metric?).length := by
  induction as with
  | nil => simp [exec]
  | cons a rest ih =>
    cases a with
    | send d v ls =>
      rw [exec]
      cases MustNewConstMetric d v ls <;> simp [Action.metric?, ih]
    | log e =>
      rw [exec]
      simpa [Action.metric?] using ih
    | indexOutOfRange => simp [exec]

theorem digitsValue_foldl (cs : List Char) (n : Nat) :
    cs.foldl (fun n c => 10 * n + (c.toNat - 48)) n =
      n * 10 ^ cs.length + Nat.ofDigits 10 (cs.reverse.map fun c => c.toNat - '0'.toNat) := by
  induction cs generalizing n with
  | nil => simp
  | cons c cs ih =>
    rw [List.foldl_cons, ih, List.reverse_cons, List.map_append, Nat.ofDigits_append]
    simp only [List.length_cons, List.map_cons, List.map_nil, Nat.ofDigits_singleton,
      List.length_map, List.length_reverse]
    have h48 : '0'.toNat = 48 := rfl
    rw [h48]
    ring

theorem digitsValue_eq (cs : List Char) :
    digitsValue cs = Nat.ofDigits 10 (cs.reverse.map fun c => c.toNat - '0'.toNat) := by
  rw [digitsValue, digitsValue_foldl]
  simp

theorem parseDigits_eq (cs : List Char) :
    parseDigits cs =
      if cs = [] ∨ cs.any (fun c => !c.isDigit) then none
      else some (Nat.ofDigits 10 (cs.reverse.map fun c => c.toNat - '0'.toNat)) := by
  unfold parseDigits
  by_cases h1 : cs = []
  · simp [h1]
  · by_cases h2 : cs.all Char.isDigit = true
    · have h3 : ¬ (cs.any (fun c => !c.isDigit) = true) := by
        simp only [List.any_eq_true, Bool.not_eq_true', not_exists, not_and,
          Bool.not_eq_false]
        intro c hc
        exact List.all_eq_true.1 h2 c hc
      simp [h1, h2, h3, digitsValue_eq]
    · have h3 : cs.any (fun c => !c.isDigit) = true := by
        simp only [List.all_eq_true, not_forall] at h2
        obtain ⟨c, hc, hcd⟩ := h2
        exact List.any_eq_true.2 ⟨c, hc, by simpa using hcd⟩
      simp [h1, h2, h3]

theorem range_nonneg (N : Nat) :
    (if N < 2 ^ 63 then some (N : Int) else none) =
      if -(2 : Int) ^ 63 ≤ (N : Int) ∧ (N : Int) < 2 ^ 63 then some (N : Int) else none := by
  norm_num
  split_ifs with h1 h2 h2
  · rfl
  · exact absurd ⟨by omega, by omega⟩ h2
  · omega
  · rfl

theorem range_neg (N : Nat) :
    (if N ≤ 2 ^ 63 then some (-(N : Int)) else none) =
      if -(2 : Int) ^ 63 ≤ -(N : Int) ∧ -(N : Int) < 2 ^ 63 then some (-(N : Int)) else none := by
  norm_num
  split_ifs with h1 h2 h2
  · rfl
  · exact absurd (by omega) h2
  · omega
  · rfl

theorem ParseInt_eq_intLiteral (s : String) : ParseInt s = intLiteral? s := by
  unfold ParseInt intLiteral?
  cases hcs : s.toList with
  | nil => simp
  | cons c cs =>
    by_cases hp : c = '+'
    · subst hp
      have hne : ¬ (some '+' = some '-') := by decide
      simp only [List.head?_cons, List.tail_cons, true_or, if_true, parseDigits_eq, hne, if_false]
      by_cases hd : cs = [] ∨ cs.any (fun c => !c.isDigit) = true
      · rw [if_pos hd, if_pos hd]; rfl
      · rw [if_neg hd, if_neg hd]
        exact range_nonneg _
    · by_cases hm : c = '-'
      · subst hm
        simp only [List.head?_cons, List.tail_cons, or_true, if_true, parseDigits_eq]
        by_cases hd : cs = [] ∨ cs.any (fun c => !c.isDigit) = true
        · rw [if_pos hd, if_pos hd]; rfl
        · rw [if_neg hd, if_neg hd]
          exact range_neg _
      · split
        · rename_i h; exact absurd h (by simp)
        · rename_i h; exact absurd (List.cons.inj h).1 hp
        · rename_i h; exact absurd (List.cons.inj h).1 hm
        · rw [parseDigits_eq]
          simp only [List.head?_cons, Option.some.injEq, hp, hm, or_self, if_false]
          by_cases hd : (c :: cs) = [] ∨ (c :: cs).any (fun c => !c.isDigit) = true
          · rw [if_pos hd, if_pos hd]; rfl
          · rw [if_neg hd, if_neg hd]
            exact range_nonneg _

theorem capabilityActions_not_inUse (p : String) (pf : String → Option ℚ)
    (sFields : List String) (sc : SensorCapability) :
    ∀ m ∈ (capabilityActions (NewEcobeeCollector p) pf sFields sc).filterMap Action.metric?,
      m.desc ≠ (NewEcobeeCollector p).inUse := by
  intro m hm
  unfold capabilityActions at hm
  split_ifs at hm
  · cases hp : ParseInt sc.Value with
    | none => simp [hp, Action.metric?] at hm
    | some v =>
      simp only [hp, List.filterMap_cons, Action.metric?, List.filterMap_nil,
        List.mem_singleton] at hm
      subst hm
      simp [NewEcobeeCollector, descs_new_eq_iff]
  · cases hp : pf sc.Value with
    | none => simp [hp, Action.metric?] at hm
    | some v =>
      simp only [hp, List.filterMap_cons, Action.metric?, List.filterMap_nil,
        List.mem_singleton] at hm
      subst hm
      simp [NewEcobeeCollector, descs_new_eq_iff]
  · simp only [List.filterMap_cons, Action.metric?, List.filterMap_nil,
      List.mem_singleton] at hm
    subst hm
    simp [NewEcobeeCollector, descs_new_eq_iff]
  · simp only [List.filterMap_cons, Action.metric?, List.filterMap_nil,
      List.mem_singleton] at hm
    subst hm
    simp [NewEcobeeCollector, descs_new_eq_iff]
  · simp [Action.metric?] at hm
  all_goals
    first
    | (have h := floatOrUnknown_desc pf _ sFields sc m hm
       rw [h.1]
       simp [NewEcobeeCollector, descs_new_eq_iff])
    | simp [Action.metric?] at hm

theorem inUseCount_sensorMetrics (p : String) (pf : String → Option ℚ) (t : Thermostat) :
    inUseCount (NewEcobeeCollector p) (sensorMetrics (NewEcobeeCollector p) pf t) =
      t.RemoteSensors.length := by
  unfold inUseCount sensorMetrics
  induction t.RemoteSensors with
  | nil => rfl
  | cons s rest ih =>
    rw [List.flatMap_cons, List.filterMap_append, List.filter_append, List.length_append, ih]
    have h1 : ((sensorActions (NewEcobeeCollector p) pf [t.Identifier, t.Name] s).filterMap
        Action.metric?).filter (fun m => decide (m.desc = (NewEcobeeCollector p).inUse)) =
        [{ desc := (NewEcobeeCollector p).inUse, value := if s.InUse then 1 else 0,
           labelValues := [t.Identifier, t.Name, s.ID, s.Name, s.Type_] }] := by
      simp only [sensorActions, List.filterMap_cons, Action.metric?, List.filter_cons,
        decide_True, if_true, List.cons.injEq, true_and]
      refine ⟨rfl, ?_⟩
      rw [List.filter_eq_nil_iff]
      intro m hm hd
      obtain ⟨a, ha, hma⟩ := List.mem_filterMap.1 hm
      obtain ⟨sc, -, hsc⟩ := List.mem_flatMap.1 ha
      exact capabilityActions_not_inUse p pf _ sc m (List.mem_filterMap.2 ⟨a, hsc, hma⟩)
        (by simpa using hd)
    rw [h1]
    simp [Nat.add_comm]

theorem inUseCount_thermostat (p : String) (pf : String → Option ℚ) (t : Thermostat)
    (hi : t.indexable = true) :
    inUseCount (NewEcobeeCollector p) (collectThermostat (NewEcobeeCollector p) pf t).metrics =
      t.RemoteSensors.length := by
  cases hc : t.Runtime.Connected with
  | false =>
    rw [collectThermostat_disconnected p pf t hc]
    exact inUseCount_sensorMetrics p pf t
  | true =>
    cases hf : t.Weather.Forecasts with
    | nil => simp [Thermostat.indexable, hc, hf] at hi
    | cons w ws =>
      rw [collectThermostat_connected p pf t w ws hc hf]
      have h2 := inUseCount_sensorMetrics p pf t
      unfold inUseCount at h2 ⊢
      rw [List.filter_append, List.length_append, h2]
      simp [connectedMetrics, List.filter_cons, NewEcobeeCollector, descs_new_eq_iff]

theorem inUseCount_Collect (p : String) (pf : String → Option ℚ) (elapsed : ℚ)
    (tt : List Thermostat) (h : ∀ t ∈ tt, t.indexable = true) :
    inUseCount (NewEcobeeCollector p) (Collect (NewEcobeeCollector p) pf elapsed tt none).metrics =
      sensorCount tt := by
  induction tt using List.reverseRecOn with
  | nil =>
    rw [Collect_metrics_cons]
    simp [inUseCount, sensorCount, exec, List.filter_cons, NewEcobeeCollector,
      descs_new_eq_iff]
  | append_singleton pre t ih =>
    have hpre : ∀ u ∈ pre, u.indexable = true := fun u hu => h u (List.mem_append_left _ hu)
    have ht : t.indexable = true := h t (by simp)
    have hseg := Collect_segment p pf elapsed pre [] t hpre
    have hnp : (collectThermostat (NewEcobeeCollector p) pf t).panicked = false := by
      rw [collectThermostat_panicked, ht]; rfl
    rw [hnp] at hseg
    simp only [Bool.false_eq_true, if_false, List.flatMap_nil, exec, List.append_nil] at hseg
    rw [hseg]
    have ih2 := ih hpre
    have h3 := inUseCount_thermostat p pf t ht
    unfold inUseCount at ih2 h3 ⊢
    rw [List.filter_append, List.length_append, ih2, h3]
    simp [sensorCount]

theorem capabilityActions_arityOk (p : String) (pf : String → Option ℚ) (sFields : List String)
    (hs : sFields.length = 5) (sc : SensorCapability) :
    ∀ a ∈ capabilityActions (NewEcobeeCollector p) pf sFields sc, a.arityOk = true := by
  intro a ha
  have := capabilityActions_ok p pf sFields hs sc a ha
  cases a <;> simp_all [Action.ok, Action.arityOk]

theorem connectedActions_arityOk (p : String) (t : Thermostat) :
    ∀ a ∈ connectedActions (NewEcobeeCollector p) t, a.arityOk = true := by
  intro a ha
  simp only [connectedActions, List.mem_append, List.mem_map, List.mem_cons,
    List.mem_singleton, List.not_mem_nil, or_false] at ha
  rcases ha with ⟨w, -, rfl⟩ | ha
  · rfl
  · cases hfc : t.Weather.Forecasts with
    | nil =>
      simp only [hfc, atIndex] at ha
      rcases ha with h | h | h | h | h | h | h | h | h | h | h | h | h | h | h | h | h | h | h
        | h | h | h <;> subst h <;> rfl
    | cons w ws =>
      simp only [hfc, atIndex, List.getElem?_cons_zero] at ha
      rcases ha with h | h | h | h | h | h | h | h | h | h | h | h | h | h | h | h | h | h | h
        | h | h | h <;> subst h <;> rfl

theorem collectActions_arityOk (p : String) (pf : String → Option ℚ) (elapsed : ℚ)
    (tt : List Thermostat) (err : Option String) :
    ∀ a ∈ collectActions (NewEcobeeCollector p) pf elapsed tt err, a.arityOk = true := by
  intro a ha
  simp only [collectActions, List.mem_cons] at ha
  rcases ha with rfl | ha
  · rfl
  · cases err with
    | some e =>
      simp only [List.mem_singleton] at ha
      subst ha
      rfl
    | none =>
      obtain ⟨t, -, ha⟩ := List.mem_flatMap.1 ha
      simp only [thermostatActions, List.mem_append] at ha
      rcases ha with ha | ha
      · split_ifs at ha
        · exact connectedActions_arityOk p t a ha
        · simp at ha
      · obtain ⟨s, -, hs⟩ := List.mem_flatMap.1 ha
        simp only [sensorActions, List.mem_cons, List.mem_flatMap] at hs
        rcases hs with rfl | ⟨sc, -, hsc⟩
        · rfl
        · exact capabilityActions_arityOk p pf
            ([t.Identifier, t.Name] ++ [s.ID, s.Name, s.Type_]) rfl sc a hsc

/-! ## What one iteration and one capability send -/

/-- The iteration of `Collect` for a disconnected thermostat completes,
sends no observation of a runtime, hvac-mode, equipment or outside-temperature
descriptor, sends the `in_use` observation of each of its remote sensors, and
sends exactly the sensor observations that the same thermostat sends when
connected; in a scrape that reaches the thermostat these observations follow
those of the earlier thermostats. -/
theorem collectThermostat_disconnected_sends ( metricPrefix : String) (parseFloat : String → Option ℚ)
    (t : Thermostat) (ht : t.Runtime.Connected = false) :
    (collectThermostat (NewEcobeeCollector metricPrefix) parseFloat t).panicked = false ∧
    (∀ m ∈ (collectThermostat (NewEcobeeCollector metricPrefix) parseFloat t).metrics,
      m.desc ∉ (NewEcobeeCollector metricPrefix).thermostatDescs) ∧
    (∀ s ∈ t.RemoteSensors,
      ({ desc := (NewEcobeeCollector metricPrefix).inUse, value := if s.InUse then 1 else 0,
         labelValues := [t.Identifier, t.Name, s.ID, s.Name, s.Type_] } : Metric) ∈
        (collectThermostat (NewEcobeeCollector metricPrefix) parseFloat t).metrics) ∧
    (collectThermostat (NewEcobeeCollector metricPrefix) parseFloat t).metrics =
      sensorMetrics (NewEcobeeCollector metricPrefix) parseFloat t ∧
    (∀ (w : Forecast) (ws : List Forecast), t.Weather.Forecasts = w :: ws →
      (collectThermostat (NewEcobeeCollector metricPrefix) parseFloat
          { t with Runtime := { t.Runtime with Connected := true } }).metrics =
        connectedMetrics (NewEcobeeCollector metricPrefix) t w ++
          (collectThermostat (NewEcobeeCollector metricPrefix) parseFloat t).metrics ∧
      ∀ m ∈ connectedMetrics (NewEcobeeCollector metricPrefix) t w,
        m.desc ∈ (NewEcobeeCollector metricPrefix).thermostatDescs) ∧
    (∀ (elapsed : ℚ) (pre post : List Thermostat), (∀ u ∈ pre, u.indexable = true) →
      (Collect (NewEcobeeCollector metricPrefix) parseFloat elapsed (pre ++ t :: post)
          none).metrics =
        (Collect (NewEcobeeCollector metricPrefix) parseFloat elapsed pre none).metrics ++
          (collectThermostat (NewEcobeeCollector metricPrefix) parseFloat t).metrics ++
          (exec (post.flatMap
            (thermostatActions (NewEcobeeCollector metricPrefix) parseFloat))).metrics) := by
  have hd := collectThermostat_disconnected metricPrefix parseFloat t ht
  refine ⟨by rw [hd], ?_, ?_, by rw [hd], ?_, ?_⟩
  · intro m hm hmem
    rw [hd] at hm
    have h1 := sensorDescs_labels metricPrefix _
      (sensorMetrics_desc (NewEcobeeCollector metricPrefix) parseFloat t m hm)
    exact thermostatDescs_labels metricPrefix _ hmem h1
  · intro s hs
    rw [hd]
    exact inUse_mem_sensorMetrics _ parseFloat t s hs
  · intro w ws hf
    constructor
    · rw [collectThermostat_connected metricPrefix parseFloat
        { t with Runtime := { t.Runtime with Connected := true } } w ws rfl hf, hd]
      rfl
    · intro m hm
      simp only [connectedMetrics, List.mem_cons, List.mem_singleton, List.not_mem_nil,
        or_false] at hm
      rcases hm with h | h | h | h | h | h | h | h | h | h | h | h | h | h | h | h | h | h | h | h
        | h | h <;> subst h <;> simp [eCollector.thermostatDescs]
  · intro elapsed pre post hpre
    rw [Collect_segment metricPrefix parseFloat elapsed pre post t hpre, hd]
    simp

/-- The iteration of `Collect` for a connected thermostat with a forecast
sends, for each equipment channel, exactly one `equipment_running` observation
whose name label is the stage name and exactly one observation of the
channel's own descriptor; both carry `is_thing_running` of the channel's
samples and the thermostat's labels. -/
theorem collectThermostat_equipment_channels ( metricPrefix : String) (parseFloat : String → Option ℚ)
    (t : Thermostat) (hc : t.Runtime.Connected = true) (hf : t.Weather.Forecasts ≠ []) :
    (∀ ch ∈ equipmentChannels (NewEcobeeCollector metricPrefix) t,
      (collectThermostat (NewEcobeeCollector metricPrefix) parseFloat t).metrics.filter
          (fun m => decide (m.desc = (NewEcobeeCollector metricPrefix).equipmentRunning ∧
            m.labelValues[2]? = some ch.1)) =
        [{ desc := (NewEcobeeCollector metricPrefix).equipmentRunning,
           value := is_thing_running ch.2.2,
           labelValues := [t.Identifier, t.Name, ch.1] }] ∧
      (collectThermostat (NewEcobeeCollector metricPrefix) parseFloat t).metrics.filter
          (fun m => decide (m.desc = ch.2.1)) =
        [{ desc := ch.2.1, value := is_thing_running ch.2.2,
           labelValues := [t.Identifier, t.Name] }]) ∧
    ((collectThermostat (NewEcobeeCollector metricPrefix) parseFloat t).metrics.filter
        (fun m => decide (m.desc = (NewEcobeeCollector metricPrefix).equipmentRunning))).length
      = 8 := by
  cases hfc : t.Weather.Forecasts with
  | nil => exact absurd hfc hf
  | cons w ws =>
    rw [collectThermostat_connected metricPrefix parseFloat t w ws hc hfc]
    simp only [List.filter_append]
    constructor
    · intro ch hch
      rw [sensorMetrics_filter_nil, sensorMetrics_filter_nil]
      · simp only [equipmentChannels, List.mem_cons, List.mem_singleton, List.not_mem_nil,
          or_false] at hch
        rcases hch with h | h | h | h | h | h | h | h <;> subst h <;>
          simp [connectedMetrics, List.filter_cons, NewEcobeeCollector, descs_new_eq_iff]
      · intro m hm
        have hm2 : m.desc = ch.2.1 := by simpa using hm
        rw [hm2]
        simp only [equipmentChannels, List.mem_cons, List.mem_singleton, List.not_mem_nil,
          or_false] at hch
        rcases hch with h | h | h | h | h | h | h | h <;> subst h <;>
          simp [eCollector.thermostatDescs]
      · intro m hm
        have hm2 : m.desc = (NewEcobeeCollector metricPrefix).equipmentRunning := by
          simp only [decide_eq_true_eq] at hm
          exact hm.1
        rw [hm2]
        simp [eCollector.thermostatDescs]
    · rw [sensorMetrics_filter_nil]
      · simp [connectedMetrics, List.filter_cons, NewEcobeeCollector, descs_new_eq_iff]
      · intro m hm
        have hm2 : m.desc = (NewEcobeeCollector metricPrefix).equipmentRunning := by
          simpa using hm
        rw [hm2]
        simp [eCollector.thermostatDescs]

/-- An `occupancy` capability sends one occupancy observation with value
1 when its value is `"true"`, one with value 0 when it is `"false"`, and for
any other value sends nothing and logs one entry at error level. -/
theorem capability_occupancy ( metricPrefix : String) (parseFloat : String → Option ℚ)
    (t : Thermostat) (s : RemoteSensor) (sc : SensorCapability)
    (hT : sc.Type_ = "occupancy") :
    (sc.Value = "true" →
      exec (capabilityActions (NewEcobeeCollector metricPrefix) parseFloat
          [t.Identifier, t.Name, s.ID, s.Name, s.Type_] sc) =
        { metrics := [{ desc := (NewEcobeeCollector metricPrefix).occupancy, value := 1,
                        labelValues := [t.Identifier, t.Name, s.ID, s.Name, s.Type_] }],
          logs := [], panicked := false }) ∧
    (sc.Value = "false" →
      exec (capabilityActions (NewEcobeeCollector metricPrefix) parseFloat
          [t.Identifier, t.Name, s.ID, s.Name, s.Type_] sc) =
        { metrics := [{ desc := (NewEcobeeCollector metricPrefix).occupancy, value := 0,
                        labelValues := [t.Identifier, t.Name, s.ID, s.Name, s.Type_] }],
          logs := [], panicked := false }) ∧
    (sc.Value ≠ "true" → sc.Value ≠ "false" →
      exec (capabilityActions (NewEcobeeCollector metricPrefix) parseFloat
          [t.Identifier, t.Name, s.ID, s.Name, s.Type_] sc) =
        { metrics := [], logs := [LogEntry.occupancyUnknown sc.Value], panicked := false } ∧
      (LogEntry.occupancyUnknown sc.Value).level = Level.error) := by
  refine ⟨?_, ?_, ?_⟩
  · intro hv
    simp [capabilityActions, hT, hv, exec, MustNewConstMetric, NewEcobeeCollector, descs.new,
      sensorLabels, runtimeLabels]
  · intro hv
    simp [capabilityActions, hT, hv, exec, MustNewConstMetric, NewEcobeeCollector, descs.new,
      sensorLabels, runtimeLabels]
  · intro h1 h2
    simp [capabilityActions, hT, h1, h2, exec, LogEntry.level]

/-- The iteration of `Collect` for a connected thermostat with a forecast
sends exactly one `outside_temperature_fahrenheit` observation, with value
`raw/10`, and exactly one `outside_temperature` observation, with value
`(raw/10 − 32)·5/9`, where `raw` is the temperature of the first forecast
entry; both carry the thermostat's identifier and name. -/
theorem collectThermostat_outside_temperature ( metricPrefix : String) (parseFloat : String → Option ℚ)
    (t : Thermostat) (w : Forecast) (ws : List Forecast)
    (hc : t.Runtime.Connected = true) (hf : t.Weather.Forecasts = w :: ws) :
    (collectThermostat (NewEcobeeCollector metricPrefix) parseFloat t).metrics.filter
        (fun m => decide (m.desc = (NewEcobeeCollector metricPrefix).outsideTempF)) =
      [{ desc := (NewEcobeeCollector metricPrefix).outsideTempF,
         value := (w.Temperature : ℚ) / 10,
         labelValues := [t.Identifier, t.Name] }] ∧
    (collectThermostat (NewEcobeeCollector metricPrefix) parseFloat t).metrics.filter
        (fun m => decide (m.desc = (NewEcobeeCollector metricPrefix).outsideTemp)) =
      [{ desc := (NewEcobeeCollector metricPrefix).outsideTemp,
         value := ((w.Temperature : ℚ) / 10 - 32) * 5 / 9,
         labelValues := [t.Identifier, t.Name] }] := by
  rw [collectThermostat_connected metricPrefix parseFloat t w ws hc hf]
  simp only [List.filter_append]
  rw [sensorMetrics_filter_nil, sensorMetrics_filter_nil]
  · simp [connectedMetrics, List.filter_cons, NewEcobeeCollector, descs_new_eq_iff,
      ecobee_temp_in_f, ecobee_temp_in_c]
  · intro m hm
    have hm2 : m.desc = (NewEcobeeCollector metricPrefix).outsideTemp := by simpa using hm
    rw [hm2]
    simp [eCollector.thermostatDescs]
  · intro m hm
    have hm2 : m.desc = (NewEcobeeCollector metricPrefix).outsideTempF := by simpa using hm
    rw [hm2]
    simp [eCollector.thermostatDescs]

/-- C12: `ecobee_temp_in_f r` is `r/10` for every raw value `r`, and the
iteration of `Collect` for a connected thermostat with a forecast sends
`actual_temperature`, `target_temperature_max` and `target_temperature_min`
exactly once each, with values `ActualTemperature/10`, `DesiredCool/10` and
`DesiredHeat/10` and the thermostat's identifier and name as labels. -/
theorem collectThermostat_runtime_temperatures ( metricPrefix : String) (parseFloat : String → Option ℚ)
    (t : Thermostat) (hc : t.Runtime.Connected = true) (hf : t.Weather.Forecasts ≠ []) :
    (∀ r : Int, ecobee_temp_in_f r = (r : ℚ) / 10 ∧ (r < 0 → ecobee_temp_in_f r < 0)) ∧
    ecobee_temp_in_f 705 = 705 / 10 ∧ ecobee_temp_in_f 705 = 70 + 1 / 2 ∧
    (collectThermostat (NewEcobeeCollector metricPrefix) parseFloat t).metrics.filter
        (fun m => decide (m.desc = (NewEcobeeCollector metricPrefix).actualTemperature)) =
      [{ desc := (NewEcobeeCollector metricPrefix).actualTemperature,
         value := (t.Runtime.ActualTemperature : ℚ) / 10,
         labelValues := [t.Identifier, t.Name] }] ∧
    (collectThermostat (NewEcobeeCollector metricPrefix) parseFloat t).metrics.filter
        (fun m => decide (m.desc = (NewEcobeeCollector metricPrefix).targetTemperatureMax)) =
      [{ desc := (NewEcobeeCollector metricPrefix).targetTemperatureMax,
         value := (t.Runtime.DesiredCool : ℚ) / 10,
         labelValues := [t.Identifier, t.Name] }] ∧
    (collectThermostat (NewEcobeeCollector metricPrefix) parseFloat t).metrics.filter
        (fun m => decide (m.desc = (NewEcobeeCollector metricPrefix).targetTemperatureMin)) =
      [{ desc := (NewEcobeeCollector metricPrefix).targetTemperatureMin,
         value := (t.Runtime.DesiredHeat : ℚ) / 10,
         labelValues := [t.Identifier, t.Name] }] := by
  refine ⟨fun r => ⟨rfl, fun hr => ?_⟩, rfl, by norm_num [ecobee_temp_in_f], ?_⟩
  · have : (r : ℚ) < 0 := by exact_mod_cast hr
    simp only [ecobee_temp_in_f]
    linarith
  cases hfc : t.Weather.Forecasts with
  | nil => exact absurd hfc hf
  | cons w ws =>
    rw [collectThermostat_connected metricPrefix parseFloat t w ws hc hfc]
    simp only [List.filter_append]
    rw [sensorMetrics_filter_nil, sensorMetrics_filter_nil, sensorMetrics_filter_nil]
    · simp [connectedMetrics, List.filter_cons, NewEcobeeCollector, descs_new_eq_iff,
        ecobee_temp_in_f]
    · intro m hm
      have hm2 : m.desc = (NewEcobeeCollector metricPrefix).targetTemperatureMin := by
        simpa using hm
      rw [hm2]
      simp [eCollector.thermostatDescs]
    · intro m hm
      have hm2 : m.desc = (NewEcobeeCollector metricPrefix).targetTemperatureMax := by
        simpa using hm
      rw [hm2]
      simp [eCollector.thermostatDescs]
    · intro m hm
      have hm2 : m.desc = (NewEcobeeCollector metricPrefix).actualTemperature := by
        simpa using hm
      rw [hm2]
      simp [eCollector.thermostatDescs]

/-- A `temperature` capability whose value is a base-10 integer literal
`n` yields exactly one temperature observation, with value `n/10`; any other
value yields no observation and one error-level log entry, and the remaining
capabilities of the sensor are translated as if the entry were absent. -/
theorem capability_temperature ( metricPrefix : String) (parseFloat : String → Option ℚ)
    (t : Thermostat) (s : RemoteSensor) (sc : SensorCapability)
    (hT : sc.Type_ = "temperature") :
    (∀ n : Int, intLiteral? sc.Value = some n →
      exec (capabilityActions (NewEcobeeCollector metricPrefix) parseFloat
          [t.Identifier, t.Name, s.ID, s.Name, s.Type_] sc) =
        { metrics := [{ desc := (NewEcobeeCollector metricPrefix).temperature,
                        value := (n : ℚ) / 10,
                        labelValues := [t.Identifier, t.Name, s.ID, s.Name, s.Type_] }],
          logs := [], panicked := false }) ∧
    (intLiteral? sc.Value = none →
      exec (capabilityActions (NewEcobeeCollector metricPrefix) parseFloat
          [t.Identifier, t.Name, s.ID, s.Name, s.Type_] sc) =
        { metrics := [], logs := [LogEntry.parseIntFailed sc.Value], panicked := false } ∧
      (LogEntry.parseIntFailed sc.Value).level = Level.error ∧
      ∀ pre post : List SensorCapability,
        capabilityMetrics (NewEcobeeCollector metricPrefix) parseFloat
            [t.Identifier, t.Name, s.ID, s.Name, s.Type_] (pre ++ sc :: post) =
          capabilityMetrics (NewEcobeeCollector metricPrefix) parseFloat
            [t.Identifier, t.Name, s.ID, s.Name, s.Type_] (pre ++ post)) ∧
    intLiteral? "712" = some 712 ∧ intLiteral? "-5" = some (-5) ∧
    intLiteral? "+12" = some 12 ∧ intLiteral? "70.5" = none ∧ intLiteral? "unknown" = none ∧
    intLiteral? "" = none ∧ intLiteral? "0x10" = none ∧
    intLiteral? "9223372036854775807" = some 9223372036854775807 ∧
    intLiteral? "9223372036854775808" = none := by
  have hs : [t.Identifier, t.Name, s.ID, s.Name, s.Type_].length = 5 := rfl
  refine ⟨?_, ?_, ?_⟩
  · intro n hn
    rw [← ParseInt_eq_intLiteral] at hn
    simp [capabilityActions, hT, hn, exec, MustNewConstMetric, NewEcobeeCollector, descs.new,
      sensorLabels, runtimeLabels, ecobee_temp_in_f]
  · intro hn
    rw [← ParseInt_eq_intLiteral] at hn
    have hex : exec (capabilityActions (NewEcobeeCollector metricPrefix) parseFloat
          [t.Identifier, t.Name, s.ID, s.Name, s.Type_] sc) =
        { metrics := [], logs := [LogEntry.parseIntFailed sc.Value], panicked := false } := by
      simp [capabilityActions, hT, hn, exec]
    refine ⟨hex, rfl, ?_⟩
    intro pre post
    have h1 : pre ++ sc :: post = pre ++ ([sc] ++ post) := by simp
    rw [h1, capabilityMetrics_append _ _ _ hs, capabilityMetrics_append _ _ _ hs,
      capabilityMetrics_append _ _ _ hs, capabilityMetrics_single, hex]
    simp
  · simp only [← ParseInt_eq_intLiteral]
    decide

/-- The iteration of `Collect` for a connected thermostat with a forecast
sends exactly one `currenthvacmode` observation; its value is 0 and its label
values are the identifier, the name and the HVAC mode, so changing the mode
alone changes the third label value alone. -/
theorem collectThermostat_currenthvacmode ( metricPrefix : String) (parseFloat : String → Option ℚ)
    (t : Thermostat) (hc : t.Runtime.Connected = true) (hf : t.Weather.Forecasts ≠ []) :
    (collectThermostat (NewEcobeeCollector metricPrefix) parseFloat t).metrics.filter
        (fun m => decide (m.desc = (NewEcobeeCollector metricPrefix).currentHvacMode)) =
      [{ desc := (NewEcobeeCollector metricPrefix).currentHvacMode, value := 0,
         labelValues := [t.Identifier, t.Name, t.Settings.HvacMode] }] ∧
    (∀ mode : String,
      (collectThermostat (NewEcobeeCollector metricPrefix) parseFloat
          { t with Settings := { HvacMode := mode } }).metrics.filter
        (fun m => decide (m.desc = (NewEcobeeCollector metricPrefix).currentHvacMode)) =
      [{ desc := (NewEcobeeCollector metricPrefix).currentHvacMode, value := 0,
         labelValues := [t.Identifier, t.Name, mode] }]) := by
  have key : ∀ u : Thermostat, u.Runtime.Connected = true → u.Weather.Forecasts ≠ [] →
      (collectThermostat (NewEcobeeCollector metricPrefix) parseFloat u).metrics.filter
        (fun m => decide (m.desc = (NewEcobeeCollector metricPrefix).currentHvacMode)) =
      [{ desc := (NewEcobeeCollector metricPrefix).currentHvacMode, value := 0,
         labelValues := [u.Identifier, u.Name, u.Settings.HvacMode] }] := by
    intro u huc huf
    cases hfc : u.Weather.Forecasts with
    | nil => exact absurd hfc huf
    | cons w ws =>
      rw [collectThermostat_connected metricPrefix parseFloat u w ws huc hfc]
      simp only [List.filter_append]
      rw [sensorMetrics_filter_nil]
      · simp [connectedMetrics, List.filter_cons, NewEcobeeCollector, descs_new_eq_iff]
      · intro m hm
        have hm2 : m.desc = (NewEcobeeCollector metricPrefix).currentHvacMode := by
          simpa using hm
        rw [hm2]
        simp [eCollector.thermostatDescs]
  exact ⟨key t hc hf, fun mode => key { t with Settings := { HvacMode := mode } } hc hf⟩

/-- A capability of a float-valued type whose value is not `"unknown"`
and parses as `x` yields exactly one observation, of the descriptor of its
type and with value `x`; when the value does not parse it yields no
observation and only error-level log entries, at least one. The descriptors
of the six types are pairwise distinct. -/
theorem capability_float ( metricPrefix : String) (parseFloat : String → Option ℚ)
    (t : Thermostat) (s : RemoteSensor) (sc : SensorCapability) (td : String × Desc)
    (htd : td ∈ floatCapabilities (NewEcobeeCollector metricPrefix))
    (hT : sc.Type_ = td.1) (hV : sc.Value ≠ "unknown") :
    (∀ x : ℚ, parseFloat sc.Value = some x →
      exec (capabilityActions (NewEcobeeCollector metricPrefix) parseFloat
          [t.Identifier, t.Name, s.ID, s.Name, s.Type_] sc) =
        { metrics := [{ desc := td.2, value := x,
                        labelValues := [t.Identifier, t.Name, s.ID, s.Name, s.Type_] }],
          logs := [], panicked := false }) ∧
    (parseFloat sc.Value = none →
      (exec (capabilityActions (NewEcobeeCollector metricPrefix) parseFloat
          [t.Identifier, t.Name, s.ID, s.Name, s.Type_] sc)).metrics = [] ∧
      (exec (capabilityActions (NewEcobeeCollector metricPrefix) parseFloat
          [t.Identifier, t.Name, s.ID, s.Name, s.Type_] sc)).logs ≠ [] ∧
      (∀ e ∈ (exec (capabilityActions (NewEcobeeCollector metricPrefix) parseFloat
          [t.Identifier, t.Name, s.ID, s.Name, s.Type_] sc)).logs, e.level = Level.error) ∧
      (exec (capabilityActions (NewEcobeeCollector metricPrefix) parseFloat
          [t.Identifier, t.Name, s.ID, s.Name, s.Type_] sc)).panicked = false) ∧
    ((floatCapabilities (NewEcobeeCollector metricPrefix)).map Prod.snd).Nodup := by
  refine ⟨?_, ?_, ?_⟩
  · intro x hx
    simp only [floatCapabilities, List.mem_cons, List.mem_singleton, List.not_mem_nil,
      or_false] at htd
    rcases htd with h | h | h | h | h | h <;> subst h <;>
      simp [capabilityActions, floatOrUnknown, hT, hV, hx, exec, MustNewConstMetric,
        NewEcobeeCollector, descs.new, sensorLabels, runtimeLabels]
  · intro hx
    simp only [floatCapabilities, List.mem_cons, List.mem_singleton, List.not_mem_nil,
      or_false] at htd
    rcases htd with h | h | h | h | h | h <;> subst h <;>
      simp [capabilityActions, floatOrUnknown, hT, hV, hx, exec, LogEntry.level]
  · simp [floatCapabilities, NewEcobeeCollector, descs_new_eq_iff]

theorem collectThermostat_labelled (c : eCollector) (pf : String → Option ℚ) (t : Thermostat) :
    ∀ m ∈ (collectThermostat c pf t).metrics, labelledBy t m = true := by
  intro m hm
  obtain ⟨a, ha, hma, -⟩ := exec_metrics_mem _ m hm
  simpa [labelledBy] using (thermostatActions_sends c pf t a ha m hma).2

theorem others_not_labelled (p : String) (pf : String → Option ℚ) (t : Thermostat)
    (l : List Thermostat) (hd : ∀ u ∈ l, ¬ (u.Identifier = t.Identifier ∧ u.Name = t.Name))
    (q : Metric → Bool) :
    (exec (l.flatMap (thermostatActions (NewEcobeeCollector p) pf))).metrics.filter
      (fun m => q m && labelledBy t m) = [] := by
  rw [List.filter_eq_nil_iff]
  intro m hm hq
  obtain ⟨u, hu, -, hl⟩ := Collect_tail_mem p pf l m hm
  simp only [Bool.and_eq_true, labelledBy, decide_eq_true_eq] at hq
  rw [hl] at hq
  have := hq.2
  simp only [List.cons.injEq, and_true] at this
  exact hd u hu this

theorem Collect_filter_labelled (p : String) (pf : String → Option ℚ) (elapsed : ℚ)
    (pre post : List Thermostat) (t : Thermostat) (q : Metric → Bool)
    (hpre : ∀ u ∈ pre, u.indexable = true)
    (hd : ∀ u ∈ pre ++ post, ¬ (u.Identifier = t.Identifier ∧ u.Name = t.Name)) :
    (Collect (NewEcobeeCollector p) pf elapsed (pre ++ t :: post) none).metrics.filter
        (fun m => q m && labelledBy t m) =
      (collectThermostat (NewEcobeeCollector p) pf t).metrics.filter q := by
  rw [Collect_segment p pf elapsed pre post t hpre, List.filter_append, List.filter_append]
  have h1 : (Collect (NewEcobeeCollector p) pf elapsed pre none).metrics.filter
      (fun m => q m && labelledBy t m) = [] := by
    rw [Collect_metrics_cons]
    simp only [List.filter_cons]
    rw [others_not_labelled p pf t pre (fun u hu => hd u (List.mem_append_left _ hu)) q]
    simp [labelledBy]
  have h2 : (collectThermostat (NewEcobeeCollector p) pf t).metrics.filter
      (fun m => q m && labelledBy t m) =
      (collectThermostat (NewEcobeeCollector p) pf t).metrics.filter q := by
    apply List.filter_congr
    intro m hm
    rw [collectThermostat_labelled _ pf t m hm, Bool.and_true]
  have h3 : (if (collectThermostat (NewEcobeeCollector p) pf t).panicked = true then []
      else (exec (post.flatMap (thermostatActions (NewEcobeeCollector p) pf))).metrics).filter
      (fun m => q m && labelledBy t m) = [] := by
    split_ifs
    · rfl
    · exact others_not_labelled p pf t post (fun u hu => hd u (List.mem_append_right _ hu)) q
  rw [h1, h2, h3]
  simp

theorem Collect_capability_at (p : String) (pf : String → Option ℚ) (elapsed : ℚ)
    (pre post : List Thermostat) (t : Thermostat) (spre spost : List RemoteSensor)
    (s : RemoteSensor) (cpre cpost : List SensorCapability) (sc : SensorCapability)
    (hpre : ∀ u ∈ pre, u.indexable = true) (ht : t.indexable = true) :
    ∃ (M1 M2 : List Metric) (L1 L2 : List LogEntry),
      (Collect (NewEcobeeCollector p) pf elapsed
          (responseAt pre t post spre s spost (cpre ++ sc :: cpost)) none).metrics =
        M1 ++ (exec (capabilityActions (NewEcobeeCollector p) pf
          [t.Identifier, t.Name, s.ID, s.Name, s.Type_] sc)).metrics ++ M2 ∧
      (Collect (NewEcobeeCollector p) pf elapsed
          (responseAt pre t post spre s spost (cpre ++ sc :: cpost)) none).logs =
        L1 ++ (exec (capabilityActions (NewEcobeeCollector p) pf
          [t.Identifier, t.Name, s.ID, s.Name, s.Type_] sc)).logs ++ L2 ∧
      (Collect (NewEcobeeCollector p) pf elapsed
          (responseAt pre t post spre s spost (cpre ++ cpost)) none).metrics = M1 ++ M2 ∧
      (Collect (NewEcobeeCollector p) pf elapsed
          (responseAt pre t post spre s spost (cpre ++ cpost)) none).logs = L1 ++ L2 := by
  let c := NewEcobeeCollector p
  let sF := [t.Identifier, t.Name, s.ID, s.Name, s.Type_]
  let A : List Action :=
    Action.send c.fetchTime elapsed [] ::
      (pre.flatMap (thermostatActions c pf) ++
        ((if t.Runtime.Connected = true then connectedActions c t else []) ++
          (spre.flatMap (sensorActions c pf [t.Identifier, t.Name]) ++
            (Action.send c.inUse (if s.InUse then 1 else 0) sF ::
              cpre.flatMap (capabilityActions c pf sF)))))
  let Rest : List Action :=
    cpost.flatMap (capabilityActions c pf sF) ++
      (spost.flatMap (sensorActions c pf [t.Identifier, t.Name]) ++
        post.flatMap (thermostatActions c pf))
  have hconn : ∀ ss : List RemoteSensor,
      connectedActions c { t with RemoteSensors := ss } = connectedActions c t := fun _ => rfl
  have e1 : collectActions c pf elapsed
      (responseAt pre t post spre s spost (cpre ++ sc :: cpost)) none =
      A ++ (capabilityActions c pf sF sc ++ Rest) := by
    simp [A, Rest, sF, collectActions, responseAt, thermostatActions, sensorActions,
      List.flatMap_append, List.flatMap_cons, hconn]
  have e2 : collectActions c pf elapsed
      (responseAt pre t post spre s spost (cpre ++ cpost)) none = A ++ Rest := by
    simp [A, Rest, sF, collectActions, responseAt, thermostatActions, sensorActions,
      List.flatMap_append, List.flatMap_cons, hconn]
  have hA : ∀ a ∈ A, a.ok = true := by
    intro a ha
    simp only [A, List.mem_cons, List.mem_append] at ha
    rcases ha with rfl | ha | ha | ha | rfl | ha
    · rfl
    · exact thermostatsActions_ok p pf pre hpre a ha
    · split_ifs at ha with hc
      · refine connectedActions_ok p t ?_ a ha
        intro hf
        simp [Thermostat.indexable, hc, hf] at ht
      · simp at ha
    · exact sensorsActions_ok p pf [t.Identifier, t.Name] rfl spre a ha
    · rfl
    · obtain ⟨x, -, hx⟩ := List.mem_flatMap.1 ha
      exact capabilityActions_ok p pf sF rfl x a hx
  have hC : ∀ a ∈ capabilityActions c pf sF sc, a.ok = true :=
    capabilityActions_ok p pf sF rfl sc
  refine ⟨A.filterMap Action.metric?, (exec Rest).metrics, A.filterMap Action.logEntry?,
    (exec Rest).logs, ?_, ?_, ?_, ?_⟩
  · show (exec (collectActions c pf elapsed _ none)).metrics = _
    rw [e1, exec_ok_append _ _ hA, exec_ok_append _ _ hC, exec_of_ok _ hC]
    simp
  · show (exec (collectActions c pf elapsed _ none)).logs = _
    rw [e1, exec_ok_append _ _ hA, exec_ok_append _ _ hC, exec_of_ok _ hC]
    simp
  · show (exec (collectActions c pf elapsed _ none)).metrics = _
    rw [e2, exec_ok_append _ _ hA]
  · show (exec (collectActions c pf elapsed _ none)).logs = _
    rw [e2, exec_ok_append _ _ hA]

/-! ## The claims -/

/-- C1: at a response whose first thermostat is connected with an empty
forecast list, `Collect` ends in a panic after the thirteenth observation;
no sensor observation of that thermostat or of the later one is sent. -/
theorem C1_empty_forecast_panics :
    (Collect (NewEcobeeCollector "ecobee") parseFloatIntegral 1
      [sampleNoForecast, sampleDisconnected] none).panicked = true ∧
    (Collect (NewEcobeeCollector "ecobee") parseFloatIntegral 1
      [sampleNoForecast, sampleDisconnected] none).metrics.map (fun m => m.desc.fqName) =
      [ "ecobee_fetch_time", "ecobee_actual_temperature", "ecobee_target_temperature_max",
        "ecobee_target_temperature_min", "ecobee_currenthvacmode", "ecobee_equipment_running",
        "ecobee_equipment_running", "ecobee_equipment_running", "ecobee_equipment_running",
        "ecobee_equipment_running", "ecobee_equipment_running", "ecobee_equipment_running",
        "ecobee_equipment_running" ] ∧
    (Collect (NewEcobeeCollector "ecobee") parseFloatIntegral 1
      [sampleDisconnected] none).metrics.map (fun m => m.desc.fqName) =
      [ "ecobee_fetch_time", "ecobee_in_use", "ecobee_temperature", "ecobee_humidity" ] := by
  decide

/-- C2: when the data-source call fails, the only observation sent is that of
`fetch_time`; the error is logged and the run completes. -/
theorem C2_fetch_failure ( metricPrefix : String) (parseFloat : String → Option ℚ) (elapsed : ℚ)
    (tt : List Thermostat) (err : String) :
    (Collect (NewEcobeeCollector metricPrefix) parseFloat elapsed tt (some err)).metrics =
      [{ desc := (NewEcobeeCollector metricPrefix).fetchTime, value := elapsed,
         labelValues := [] }] ∧
    (Collect (NewEcobeeCollector metricPrefix) parseFloat elapsed tt (some err)).metrics.length
      = 1 ∧
    (Collect (NewEcobeeCollector metricPrefix) parseFloat elapsed tt (some err)).logs =
      [LogEntry.fetchFailed err] ∧
    (Collect (NewEcobeeCollector metricPrefix) parseFloat elapsed tt (some err)).panicked
      = false := by
  simp [Collect, collectActions, exec, MustNewConstMetric, NewEcobeeCollector, descs.new]

/-- C3: on the response `[sampleNoForecast, sampleDisconnected]` the scrape
ends at the first thermostat and `Collect` sends no `in_use` observation of
the disconnected second one; and a disconnected thermostat without forecast
sends its sensor observations while its connected variant sends none. On
every response whose earlier thermostats reach their sensor loop, `Collect`
sends for a disconnected thermostat no observation of a runtime, hvac-mode,
equipment or outside-temperature descriptor, sends the `in_use` observation
of each of its remote sensors, and, when it has a forecast, sends exactly the
sensor observations that `Collect` sends for its connected variant. -/
theorem C3_disconnected :
    ((Collect (NewEcobeeCollector "ecobee") parseFloatIntegral 1
        [sampleNoForecast, sampleDisconnected] none).metrics.filter
      (fun m => labelledBy sampleDisconnected m) = []) ∧
    ((Collect (NewEcobeeCollector "ecobee") parseFloatIntegral 1
        [sampleDisconnected] none).metrics.map (fun m => m.desc.fqName) =
      ["ecobee_fetch_time", "ecobee_in_use", "ecobee_temperature", "ecobee_humidity"]) ∧
    ((Collect (NewEcobeeCollector "ecobee") parseFloatIntegral 1
        [{ sampleDisconnected with
            Runtime := { sampleDisconnected.Runtime with Connected := true } }]
        none).metrics.filter
      (fun m => decide (m.desc ∈ (NewEcobeeCollector "ecobee").sensorDescs)) = []) ∧
    (∀ ( metricPrefix : String) (parseFloat : String → Option ℚ) (elapsed : ℚ)
        (pre post : List Thermostat) (t : Thermostat),
      (∀ u ∈ pre, u.indexable = true) → t.Runtime.Connected = false →
      (∀ s ∈ t.RemoteSensors,
        ({ desc := (NewEcobeeCollector metricPrefix).inUse,
           value := if s.InUse then 1 else 0,
           labelValues := [t.Identifier, t.Name, s.ID, s.Name, s.Type_] } : Metric) ∈
          (Collect (NewEcobeeCollector metricPrefix) parseFloat elapsed (pre ++ t :: post)
            none).metrics) ∧
      ((∀ u ∈ pre ++ post, ¬ (u.Identifier = t.Identifier ∧ u.Name = t.Name)) →
        (Collect (NewEcobeeCollector metricPrefix) parseFloat elapsed (pre ++ t :: post)
            none).metrics.filter
          (fun m => decide (m.desc ∈ (NewEcobeeCollector metricPrefix).thermostatDescs) &&
            labelledBy t m) = [] ∧
        (Collect (NewEcobeeCollector metricPrefix) parseFloat elapsed (pre ++ t :: post)
            none).metrics.filter (fun m => labelledBy t m) =
          sensorMetrics (NewEcobeeCollector metricPrefix) parseFloat t ∧
        (t.Weather.Forecasts ≠ [] →
          (Collect (NewEcobeeCollector metricPrefix) parseFloat elapsed
              (pre ++ { t with Runtime := { t.Runtime with Connected := true } } :: post)
              none).metrics.filter
            (fun m => decide (m.desc ∈ (NewEcobeeCollector metricPrefix).sensorDescs) &&
              labelledBy t m) =
            (Collect (NewEcobeeCollector metricPrefix) parseFloat elapsed (pre ++ t :: post)
              none).metrics.filter (fun m => labelledBy t m)))) := by
  refine ⟨by decide, by decide, by decide, ?_⟩
  intro p pf elapsed pre post t hpre hc
  have hds := collectThermostat_disconnected_sends p pf t hc
  have hdis := collectThermostat_disconnected p pf t hc
  constructor
  · intro s hs
    rw [hds.2.2.2.2.2 elapsed pre post hpre]
    exact List.mem_append_left _ (List.mem_append_right _ (hds.2.2.1 s hs))
  · intro hd
    have hall : (Collect (NewEcobeeCollector p) pf elapsed (pre ++ t :: post)
        none).metrics.filter (fun m => labelledBy t m) =
        sensorMetrics (NewEcobeeCollector p) pf t := by
      have h0 := Collect_filter_labelled p pf elapsed pre post t (fun _ => true) hpre hd
      simp only [Bool.true_and] at h0
      rw [h0, hdis]
      simp
    refine ⟨?_, hall, ?_⟩
    · rw [Collect_filter_labelled p pf elapsed pre post t _ hpre hd, List.filter_eq_nil_iff]
      intro m hm hq
      exact hds.2.1 m hm (by simpa using hq)
    · intro hf
      cases hfc : t.Weather.Forecasts with
      | nil => exact absurd hfc hf
      | cons w ws =>
        rw [hall]
        have h2 := Collect_filter_labelled p pf elapsed pre post
          { t with Runtime := { t.Runtime with Connected := true } }
          (fun m => decide (m.desc ∈ (NewEcobeeCollector p).sensorDescs)) hpre hd
        refine h2.trans ?_
        rw [(hds.2.2.2.2.1 w ws hfc).1, hdis, List.filter_append]
        have h3 : (connectedMetrics (NewEcobeeCollector p) t w).filter
            (fun m => decide (m.desc ∈ (NewEcobeeCollector p).sensorDescs)) = [] := by
          rw [List.filter_eq_nil_iff]
          intro m hm hq
          have hm1 := (hds.2.2.2.2.1 w ws hfc).2 m hm
          have hm2 : m.desc ∈ (NewEcobeeCollector p).sensorDescs := by simpa using hq
          exact thermostatDescs_labels p _ hm1 (sensorDescs_labels p _ hm2)
        have h4 : (sensorMetrics (NewEcobeeCollector p) pf t).filter
            (fun m => decide (m.desc ∈ (NewEcobeeCollector p).sensorDescs)) =
            sensorMetrics (NewEcobeeCollector p) pf t := by
          rw [List.filter_eq_self]
          intro m hm
          simpa using sensorMetrics_desc _ pf t m hm
        rw [h3, h4]
        rfl

/-- C3 on the response `[sampleOffice, sampleDisconnectedForecast]`: the
`in_use` observation of the sensor of the disconnected second thermostat is
sent, and the sensor observations sent for its connected variant are the
observations sent for it. -/
theorem C3_disconnected_witness :
    ({ desc := (NewEcobeeCollector "ecobee").inUse, value := 0,
       labelValues := ["522", "Cabin", "rs:200", "Bedroom", "ecobee3_remote_sensor"] } :
        Metric) ∈
      (Collect (NewEcobeeCollector "ecobee") parseFloatIntegral 1
        ([sampleOffice] ++ sampleDisconnectedForecast :: []) none).metrics ∧
    (Collect (NewEcobeeCollector "ecobee") parseFloatIntegral 1
        ([sampleOffice] ++
          { sampleDisconnectedForecast with
            Runtime := { sampleDisconnectedForecast.Runtime with Connected := true } } :: [])
        none).metrics.filter
      (fun m => decide (m.desc ∈ (NewEcobeeCollector "ecobee").sensorDescs) &&
        labelledBy sampleDisconnectedForecast m) =
      (Collect (NewEcobeeCollector "ecobee") parseFloatIntegral 1
        ([sampleOffice] ++ sampleDisconnectedForecast :: []) none).metrics.filter
      (fun m => labelledBy sampleDisconnectedForecast m) :=
  ⟨(C3_disconnected.2.2.2 "ecobee" parseFloatIntegral 1 [sampleOffice] []
      sampleDisconnectedForecast (by decide) rfl).1
      { sampleSensor with ID := "rs:200", InUse := false } (by decide),
    ((C3_disconnected.2.2.2 "ecobee" parseFloatIntegral 1 [sampleOffice] []
      sampleDisconnectedForecast (by decide) rfl).2 (by decide)).2.2 (by decide)⟩

/-- C4: `is_thing_running` is 1 exactly when some sample is positive and 0
otherwise; it takes no other value, and a positive sample at any position
gives 1. -/
theorem C4_is_thing_running (xs : List Int) :
    (is_thing_running xs = 1 ↔ ∃ x ∈ xs, 0 < x) ∧
    (is_thing_running xs = 0 ↔ ¬ ∃ x ∈ xs, 0 < x) ∧
    (is_thing_running xs = 0 ∨ is_thing_running xs = 1) ∧
    (∀ (pre post : List Int) (x : Int), 0 < x → is_thing_running (pre ++ x :: post) = 1) ∧
    is_thing_running [] = 0 ∧ is_thing_running [0, 0] = 0 ∧ is_thing_running [0, 3] = 1 ∧
    is_thing_running [3, 0] = 1 ∧ is_thing_running [-2, 0] = 0 := by
  refine ⟨?_, ?_, ?_, ?_, ?_, ?_, ?_, ?_, ?_⟩
  · rw [is_thing_running_eq]; split_ifs with h <;> simp [h]
  · rw [is_thing_running_eq]; split_ifs with h <;> simp [h]
  · rw [is_thing_running_eq]; split_ifs <;> simp
  · intro pre post x hx
    rw [is_thing_running_eq, if_pos ⟨x, by simp, hx⟩]
  all_goals simp [is_thing_running]

/-- C5: on the response `[sampleNoForecast, sampleOffice]` the scrape ends at
the first thermostat and `Collect` sends no equipment observation of the
second, a connected thermostat with a forecast. On every response whose
earlier thermostats reach their sensor loop, `Collect` sends for a connected
thermostat with a forecast and for each equipment channel exactly one
`equipment_running` observation whose name label is the stage name and exactly
one observation of the channel's own descriptor; both carry `is_thing_running`
of the channel's samples and the thermostat's labels. -/
theorem C5_equipment_channels :
    ((Collect (NewEcobeeCollector "ecobee") parseFloatIntegral 1
        [sampleNoForecast, sampleOffice] none).metrics.filter
      (fun m => labelledBy sampleOffice m) = []) ∧
    (∀ ( metricPrefix : String) (parseFloat : String → Option ℚ) (elapsed : ℚ)
        (pre post : List Thermostat) (t : Thermostat),
      (∀ u ∈ pre, u.indexable = true) → t.Runtime.Connected = true →
      t.Weather.Forecasts ≠ [] →
      (∀ u ∈ pre ++ post, ¬ (u.Identifier = t.Identifier ∧ u.Name = t.Name)) →
      (∀ ch ∈ equipmentChannels (NewEcobeeCollector metricPrefix) t,
        (Collect (NewEcobeeCollector metricPrefix) parseFloat elapsed (pre ++ t :: post)
            none).metrics.filter
          (fun m => decide (m.desc = (NewEcobeeCollector metricPrefix).equipmentRunning ∧
            m.labelValues[2]? = some ch.1) && labelledBy t m) =
          [{ desc := (NewEcobeeCollector metricPrefix).equipmentRunning,
             value := is_thing_running ch.2.2,
             labelValues := [t.Identifier, t.Name, ch.1] }] ∧
        (Collect (NewEcobeeCollector metricPrefix) parseFloat elapsed (pre ++ t :: post)
            none).metrics.filter
          (fun m => decide (m.desc = ch.2.1) && labelledBy t m) =
          [{ desc := ch.2.1, value := is_thing_running ch.2.2,
             labelValues := [t.Identifier, t.Name] }]) ∧
      ((Collect (NewEcobeeCollector metricPrefix) parseFloat elapsed (pre ++ t :: post)
          none).metrics.filter
        (fun m => decide (m.desc = (NewEcobeeCollector metricPrefix).equipmentRunning) &&
          labelledBy t m)).length = 8) := by
  refine ⟨by decide, ?_⟩
  intro p pf elapsed pre post t hpre hc hf hd
  have h := collectThermostat_equipment_channels p pf t hc hf
  refine ⟨fun ch hch => ?_, ?_⟩
  · rw [Collect_filter_labelled p pf elapsed pre post t _ hpre hd,
      Collect_filter_labelled p pf elapsed pre post t _ hpre hd]
    exact h.1 ch hch
  · rw [Collect_filter_labelled p pf elapsed pre post t _ hpre hd]
    exact h.2

/-- C5 on the response `[sampleDisconnected, sampleOffice]`: the fan channel
of the second thermostat, whose fan samples are 15 and 0. -/
theorem C5_equipment_channels_witness :
    (Collect (NewEcobeeCollector "ecobee") parseFloatIntegral 1
        ([sampleDisconnected] ++ sampleOffice :: []) none).metrics.filter
      (fun m => decide (m.desc = (NewEcobeeCollector "ecobee").fan) &&
        labelledBy sampleOffice m) =
      [{ desc := (NewEcobeeCollector "ecobee").fan, value := is_thing_running [15, 0],
         labelValues := ["633", "Office"] }] :=
  ((C5_equipment_channels.2 "ecobee" parseFloatIntegral 1 [sampleDisconnected] []
    sampleOffice (by decide) rfl (by decide) (by decide)).1
    ("fan", (NewEcobeeCollector "ecobee").fan, [15, 0]) (by simp [equipmentChannels]; rfl)).2

/-- C6, as stated, fails: `Describe` yields 25 descriptors, not 24. -/
theorem C6_counterexample : (Describe (NewEcobeeCollector "ecobee")).length ≠ 24 := by
  decide

/-- C6, amended: for every prefix, `Describe` yields exactly 25 descriptors;
it takes no scrape result as input. -/
theorem C6_describe_length ( metricPrefix : String) :
    (Describe (NewEcobeeCollector metricPrefix)).length = 25 := by
  rfl

/-- C7: for every prefix `P`, the names yielded by `Describe` are the strings
`P_s` for `s` over the catalog suffixes, pairwise distinct, and every
descriptor carries the label names of its group. -/
theorem C7_describe_catalog (P : String) :
    (Describe (NewEcobeeCollector P)).map Desc.fqName =
      catalogSuffixes.map (fun s => P ++ "_" ++ s) ∧
    ((Describe (NewEcobeeCollector P)).map Desc.fqName).Nodup ∧
    (Describe (NewEcobeeCollector P)).Nodup ∧
    (NewEcobeeCollector P).fetchTime.variableLabels = [] ∧
    (∀ d ∈ [ (NewEcobeeCollector P).actualTemperature,
             (NewEcobeeCollector P).targetTemperatureMax,
             (NewEcobeeCollector P).targetTemperatureMin,
             (NewEcobeeCollector P).outsideTemp, (NewEcobeeCollector P).outsideTempF,
             (NewEcobeeCollector P).auxHeat1, (NewEcobeeCollector P).auxHeat2,
             (NewEcobeeCollector P).auxHeat3, (NewEcobeeCollector P).compCool1,
             (NewEcobeeCollector P).compCool2, (NewEcobeeCollector P).heatPump1,
             (NewEcobeeCollector P).heatPump2, (NewEcobeeCollector P).fan ],
        d.variableLabels = ["thermostat_id", "thermostat_name"]) ∧
    (NewEcobeeCollector P).equipmentRunning.variableLabels =
      ["thermostat_id", "thermostat_name", "name"] ∧
    (NewEcobeeCollector P).currentHvacMode.variableLabels =
      ["thermostat_id", "thermostat_name", "current_hvac_mode"] ∧
    (∀ d ∈ (NewEcobeeCollector P).sensorDescs,
        d.variableLabels =
          ["thermostat_id", "thermostat_name", "sensor_id", "sensor_name", "sensor_type"]) ∧
    (NewEcobeeCollector P).sensorDescs.length = 9 := by
  have hnames : (Describe (NewEcobeeCollector P)).map Desc.fqName =
      catalogSuffixes.map (fun s => P ++ "_" ++ s) := rfl
  have hinj : Function.Injective (fun s : String => P ++ "_" ++ s) := by
    intro a b hab
    exact (append_left_cancel_string (P ++ "_") a b).1 hab
  have hnd : ((Describe (NewEcobeeCollector P)).map Desc.fqName).Nodup := by
    rw [hnames]
    exact catalogSuffixes_nodup.map hinj
  refine ⟨hnames, hnd, List.Nodup.of_map _ hnd, rfl, ?_, rfl, rfl, ?_, rfl⟩
  · intro d hd
    simp only [List.mem_cons, List.mem_singleton, List.not_mem_nil, or_false] at hd
    rcases hd with h | h | h | h | h | h | h | h | h | h | h | h | h <;> subst h <;> rfl
  · intro d hd
    simp only [eCollector.sensorDescs, List.mem_cons, List.mem_singleton, List.not_mem_nil,
      or_false] at hd
    rcases hd with h | h | h | h | h | h | h | h | h <;> subst h <;> rfl

/-- C8: a capability of type `vocPPM`, `co2PPM`, `airQualityAccuracy`,
`airQuality` or `airPressure` whose value is `"unknown"` produces no effect at
all (no observation, no log entry), and the capabilities before and after it
in the same sensor are processed as if it were absent. -/
theorem C8_unknown_skipped (c : eCollector) (parseFloat : String → Option ℚ)
    (sc : SensorCapability)
    (hT : sc.Type_ ∈ ["vocPPM", "co2PPM", "airQualityAccuracy", "airQuality", "airPressure"])
    (hV : sc.Value = "unknown") :
    (∀ sFields : List String,
      capabilityActions c parseFloat sFields sc = [] ∧
      exec (capabilityActions c parseFloat sFields sc) =
        { metrics := [], logs := [], panicked := false }) ∧
    (∀ (tFields : List String) (s : RemoteSensor) (pre post : List SensorCapability),
      s.Capability = pre ++ sc :: post →
      sensorActions c parseFloat tFields s =
        Action.send c.inUse (if s.InUse then 1 else 0) (tFields ++ [s.ID, s.Name, s.Type_]) ::
          (pre.flatMap (capabilityActions c parseFloat (tFields ++ [s.ID, s.Name, s.Type_])) ++
           post.flatMap (capabilityActions c parseFloat (tFields ++ [s.ID, s.Name, s.Type_]))) ∧
      exec (sensorActions c parseFloat tFields s) =
        exec (sensorActions c parseFloat tFields { s with Capability := pre ++ post })) := by
  have h0 : ∀ sFields : List String, capabilityActions c parseFloat sFields sc = [] := by
    intro sFields
    simp only [List.mem_cons, List.mem_singleton, List.not_mem_nil, or_false] at hT
    rcases hT with h | h | h | h | h <;> simp [capabilityActions, floatOrUnknown, h, hV]
  refine ⟨fun sFields => ⟨h0 sFields, by rw [h0]; rfl⟩, ?_⟩
  intro tFields s pre post hs
  have h1 : sensorActions c parseFloat tFields s =
      Action.send c.inUse (if s.InUse then 1 else 0) (tFields ++ [s.ID, s.Name, s.Type_]) ::
        (pre.flatMap (capabilityActions c parseFloat (tFields ++ [s.ID, s.Name, s.Type_])) ++
         post.flatMap (capabilityActions c parseFloat (tFields ++ [s.ID, s.Name, s.Type_]))) := by
    simp [sensorActions, hs, List.flatMap_append, h0]
  refine ⟨h1, ?_⟩
  rw [h1]
  simp [sensorActions, List.flatMap_append]

/-- C8 at a `co2PPM` capability with value `"unknown"`. -/
theorem C8_unknown_skipped_witness :
    exec (capabilityActions (NewEcobeeCollector "ecobee") parseFloatIntegral
      ["411", "Home", "rs:100", "Bedroom", "ecobee3_remote_sensor"]
      { Type_ := "co2PPM", Value := "unknown" }) =
      { metrics := [], logs := [], panicked := false } :=
  ((C8_unknown_skipped (NewEcobeeCollector "ecobee") parseFloatIntegral
      { Type_ := "co2PPM", Value := "unknown" } (by decide) rfl).1
    ["411", "Home", "rs:100", "Bedroom", "ecobee3_remote_sensor"]).2

/-- C9: on the response `[sampleNoForecast]`, whose sensor has an occupancy
capability with value `"maybe"`, the scrape ends before the sensor loop and
`Collect` logs nothing. On every response whose thermostats up to the one of
the capability reach their sensor loop, an `occupancy` capability adds to the
output of `Collect`, at its place, one occupancy observation with value 1 when
its value is `"true"`, one with value 0 when it is `"false"`, and for any
other value no observation and one error-level log entry. -/
theorem C9_occupancy :
    ((Collect (NewEcobeeCollector "ecobee") parseFloatIntegral 1 [sampleNoForecast]
        none).logs = []) ∧
    ({ Type_ := "occupancy", Value := "maybe" } : SensorCapability) ∈
      sampleSensor.Capability ∧ sampleSensor ∈ sampleNoForecast.RemoteSensors ∧
    (∀ ( metricPrefix : String) (parseFloat : String → Option ℚ) (elapsed : ℚ)
        (pre post : List Thermostat) (t : Thermostat) (spre spost : List RemoteSensor)
        (s : RemoteSensor) (cpre cpost : List SensorCapability) (sc : SensorCapability),
      (∀ u ∈ pre, u.indexable = true) → t.indexable = true → sc.Type_ = "occupancy" →
      ∃ (M1 M2 : List Metric) (L1 L2 : List LogEntry),
        (Collect (NewEcobeeCollector metricPrefix) parseFloat elapsed
            (responseAt pre t post spre s spost (cpre ++ cpost)) none).metrics = M1 ++ M2 ∧
        (Collect (NewEcobeeCollector metricPrefix) parseFloat elapsed
            (responseAt pre t post spre s spost (cpre ++ cpost)) none).logs = L1 ++ L2 ∧
        (sc.Value = "true" →
          (Collect (NewEcobeeCollector metricPrefix) parseFloat elapsed
              (responseAt pre t post spre s spost (cpre ++ sc :: cpost)) none).metrics =
            M1 ++ [{ desc := (NewEcobeeCollector metricPrefix).occupancy, value := 1,
                     labelValues := [t.Identifier, t.Name, s.ID, s.Name, s.Type_] }] ++ M2 ∧
          (Collect (NewEcobeeCollector metricPrefix) parseFloat elapsed
              (responseAt pre t post spre s spost (cpre ++ sc :: cpost)) none).logs =
            L1 ++ L2) ∧
        (sc.Value = "false" →
          (Collect (NewEcobeeCollector metricPrefix) parseFloat elapsed
              (responseAt pre t post spre s spost (cpre ++ sc :: cpost)) none).metrics =
            M1 ++ [{ desc := (NewEcobeeCollector metricPrefix).occupancy, value := 0,
                     labelValues := [t.Identifier, t.Name, s.ID, s.Name, s.Type_] }] ++ M2 ∧
          (Collect (NewEcobeeCollector metricPrefix) parseFloat elapsed
              (responseAt pre t post spre s spost (cpre ++ sc :: cpost)) none).logs =
            L1 ++ L2) ∧
        (sc.Value ≠ "true" → sc.Value ≠ "false" →
          (Collect (NewEcobeeCollector metricPrefix) parseFloat elapsed
              (responseAt pre t post spre s spost (cpre ++ sc :: cpost)) none).metrics =
            M1 ++ M2 ∧
          (Collect (NewEcobeeCollector metricPrefix) parseFloat elapsed
              (responseAt pre t post spre s spost (cpre ++ sc :: cpost)) none).logs =
            L1 ++ [LogEntry.occupancyUnknown sc.Value] ++ L2 ∧
          (LogEntry.occupancyUnknown sc.Value).level = Level.error)) := by
  refine ⟨by decide, by decide, by decide, ?_⟩
  intro p pf elapsed pre post t spre spost s cpre cpost sc hpre ht hT
  obtain ⟨M1, M2, L1, L2, hm, hl, hm0, hl0⟩ :=
    Collect_capability_at p pf elapsed pre post t spre spost s cpre cpost sc hpre ht
  have hocc := capability_occupancy p pf t s sc hT
  refine ⟨M1, M2, L1, L2, hm0, hl0, ?_, ?_, ?_⟩
  · intro hv
    rw [hm, hl, hocc.1 hv]
    simp
  · intro hv
    rw [hm, hl, hocc.2.1 hv]
    simp
  · intro h1 h2
    rw [hm, hl, (hocc.2.2 h1 h2).1]
    exact ⟨by simp, rfl, rfl⟩
/-- C9 on the response made of `sampleConnected` with its sensor holding one
occupancy capability of value `"true"`. -/
theorem C9_occupancy_witness :
    ({ desc := (NewEcobeeCollector "ecobee").occupancy, value := 1,
       labelValues := ["411", "Home", "rs:100", "Bedroom", "ecobee3_remote_sensor"] } :
        Metric) ∈
      (Collect (NewEcobeeCollector "ecobee") parseFloatIntegral 1
        (responseAt [] sampleConnected [] [] sampleSensor []
          ([] ++ { Type_ := "occupancy", Value := "true" } :: [])) none).metrics := by
  obtain ⟨M1, M2, L1, L2, -, -, h, -, -⟩ :=
    C9_occupancy.2.2.2 "ecobee" parseFloatIntegral 1 [] [] sampleConnected [] [] sampleSensor
      [] [] { Type_ := "occupancy", Value := "true" } (by decide) (by decide) rfl
  rw [(h rfl).1]
  exact List.mem_append_left _ (List.mem_append_right _ (List.mem_singleton.2 rfl))

/-- C10, as stated, fails: no raw value separates `ecobee_temp_in_c` from the
Celsius equivalent of the Fahrenheit temperature `r/10`. -/
theorem C10_counterexample :
    ¬ ∃ r : Int, ecobee_temp_in_c r ≠ celsiusOfFahrenheit ((r : ℚ) / 10) := by
  rintro ⟨r, hr⟩
  exact hr rfl

/-- C10, amended: for every raw value `r`, `ecobee_temp_in_c r` is the Celsius
equivalent of the Fahrenheit temperature `r/10`; it sends 32.0 °F to 0 °C and
212.0 °F to 100 °C, and a tenth of a degree Fahrenheit to 1/18 of a degree. -/
theorem C10_celsius_exact (r : Int) :
    ecobee_temp_in_c r = celsiusOfFahrenheit ((r : ℚ) / 10) ∧
    ecobee_temp_in_c r = celsiusOfFahrenheit (ecobee_temp_in_f r) ∧
    ecobee_temp_in_c 320 = 0 ∧ ecobee_temp_in_c 2120 = 100 ∧
    ecobee_temp_in_c (r + 1) - ecobee_temp_in_c r = 1 / 18 := by
  refine ⟨rfl, rfl, ?_, ?_, ?_⟩
  · norm_num [ecobee_temp_in_c]
  · norm_num [ecobee_temp_in_c]
  · simp only [ecobee_temp_in_c]; push_cast; ring

/-- C11: on the response `[sampleNoForecast, sampleOffice]` the scrape ends at
the first thermostat and `Collect` sends no outside-temperature observation of
the second, a connected thermostat with a forecast. On every response whose
earlier thermostats reach their sensor loop, `Collect` sends for a connected
thermostat with forecast list `w :: ws` exactly one
`outside_temperature_fahrenheit` observation, with value `w.Temperature/10`,
and exactly one `outside_temperature` observation, with value
`(w.Temperature/10 − 32)·5/9`, both labelled with its identifier and name. -/
theorem C11_outside_temperature :
    ((Collect (NewEcobeeCollector "ecobee") parseFloatIntegral 1
        [sampleNoForecast, sampleOffice] none).metrics.filter
      (fun m => decide (m.desc = (NewEcobeeCollector "ecobee").outsideTempF) ||
        decide (m.desc = (NewEcobeeCollector "ecobee").outsideTemp)) = []) ∧
    (∀ ( metricPrefix : String) (parseFloat : String → Option ℚ) (elapsed : ℚ)
        (pre post : List Thermostat) (t : Thermostat) (w : Forecast) (ws : List Forecast),
      (∀ u ∈ pre, u.indexable = true) → t.Runtime.Connected = true →
      t.Weather.Forecasts = w :: ws →
      (∀ u ∈ pre ++ post, ¬ (u.Identifier = t.Identifier ∧ u.Name = t.Name)) →
      (Collect (NewEcobeeCollector metricPrefix) parseFloat elapsed (pre ++ t :: post)
          none).metrics.filter
        (fun m => decide (m.desc = (NewEcobeeCollector metricPrefix).outsideTempF) &&
          labelledBy t m) =
        [{ desc := (NewEcobeeCollector metricPrefix).outsideTempF,
           value := (w.Temperature : ℚ) / 10,
           labelValues := [t.Identifier, t.Name] }] ∧
      (Collect (NewEcobeeCollector metricPrefix) parseFloat elapsed (pre ++ t :: post)
          none).metrics.filter
        (fun m => decide (m.desc = (NewEcobeeCollector metricPrefix).outsideTemp) &&
          labelledBy t m) =
        [{ desc := (NewEcobeeCollector metricPrefix).outsideTemp,
           value := ((w.Temperature : ℚ) / 10 - 32) * 5 / 9,
           labelValues := [t.Identifier, t.Name] }]) := by
  refine ⟨by decide, ?_⟩
  intro p pf elapsed pre post t w ws hpre hc hf hd
  have h := collectThermostat_outside_temperature p pf t w ws hc hf
  rw [Collect_filter_labelled p pf elapsed pre post t _ hpre hd,
    Collect_filter_labelled p pf elapsed pre post t _ hpre hd]
  exact h

/-- C11 on the response `[sampleDisconnected, sampleOffice]`, whose second
thermostat has a first forecast of 500. -/
theorem C11_outside_temperature_witness :
    (Collect (NewEcobeeCollector "ecobee") parseFloatIntegral 1
        ([sampleDisconnected] ++ sampleOffice :: []) none).metrics.filter
      (fun m => decide (m.desc = (NewEcobeeCollector "ecobee").outsideTempF) &&
        labelledBy sampleOffice m) =
      [{ desc := (NewEcobeeCollector "ecobee").outsideTempF, value := (500 : ℚ) / 10,
         labelValues := ["633", "Office"] }] :=
  (C11_outside_temperature.2 "ecobee" parseFloatIntegral 1 [sampleDisconnected] []
    sampleOffice { DateTime := "2024-01-01 12:00:00", Temperature := 500 }
    [{ DateTime := "2024-01-01 18:00:00", Temperature := 410 }] (by decide) rfl rfl
    (by decide)).1

/-- C12: `ecobee_temp_in_f r` is `r/10` for every raw value `r`. On the
response `[sampleNoForecast, sampleOffice]` the scrape ends at the first
thermostat and `Collect` sends no runtime temperature of the second, a
connected thermostat with a forecast. On every response whose earlier
thermostats reach their sensor loop, `Collect` sends for a connected
thermostat with a forecast `actual_temperature`, `target_temperature_max` and
`target_temperature_min` exactly once each, with values
`ActualTemperature/10`, `DesiredCool/10` and `DesiredHeat/10`, labelled with
its identifier and name. -/
theorem C12_runtime_temperatures :
    (∀ r : Int, ecobee_temp_in_f r = (r : ℚ) / 10 ∧ (r < 0 → ecobee_temp_in_f r < 0)) ∧
    ecobee_temp_in_f 705 = 70 + 1 / 2 ∧
    ((Collect (NewEcobeeCollector "ecobee") parseFloatIntegral 1
        [sampleNoForecast, sampleOffice] none).metrics.filter
      (fun m => decide (m.desc = (NewEcobeeCollector "ecobee").actualTemperature) &&
        labelledBy sampleOffice m) = []) ∧
    (∀ ( metricPrefix : String) (parseFloat : String → Option ℚ) (elapsed : ℚ)
        (pre post : List Thermostat) (t : Thermostat),
      (∀ u ∈ pre, u.indexable = true) → t.Runtime.Connected = true →
      t.Weather.Forecasts ≠ [] →
      (∀ u ∈ pre ++ post, ¬ (u.Identifier = t.Identifier ∧ u.Name = t.Name)) →
      (Collect (NewEcobeeCollector metricPrefix) parseFloat elapsed (pre ++ t :: post)
          none).metrics.filter
        (fun m => decide (m.desc = (NewEcobeeCollector metricPrefix).actualTemperature) &&
          labelledBy t m) =
        [{ desc := (NewEcobeeCollector metricPrefix).actualTemperature,
           value := (t.Runtime.ActualTemperature : ℚ) / 10,
           labelValues := [t.Identifier, t.Name] }] ∧
      (Collect (NewEcobeeCollector metricPrefix) parseFloat elapsed (pre ++ t :: post)
          none).metrics.filter
        (fun m => decide (m.desc = (NewEcobeeCollector metricPrefix).targetTemperatureMax) &&
          labelledBy t m) =
        [{ desc := (NewEcobeeCollector metricPrefix).targetTemperatureMax,
           value := (t.Runtime.DesiredCool : ℚ) / 10,
           labelValues := [t.Identifier, t.Name] }] ∧
      (Collect (NewEcobeeCollector metricPrefix) parseFloat elapsed (pre ++ t :: post)
          none).metrics.filter
        (fun m => decide (m.desc = (NewEcobeeCollector metricPrefix).targetTemperatureMin) &&
          labelledBy t m) =
        [{ desc := (NewEcobeeCollector metricPrefix).targetTemperatureMin,
           value := (t.Runtime.DesiredHeat : ℚ) / 10,
           labelValues := [t.Identifier, t.Name] }]) := by
  refine ⟨fun r => (collectThermostat_runtime_temperatures "ecobee" parseFloatIntegral
      sampleConnected rfl (by decide)).1 r,
    (collectThermostat_runtime_temperatures "ecobee" parseFloatIntegral
      sampleConnected rfl (by decide)).2.2.1, by decide, ?_⟩
  intro p pf elapsed pre post t hpre hc hf hd
  have h := (collectThermostat_runtime_temperatures p pf t hc hf).2.2.2
  rw [Collect_filter_labelled p pf elapsed pre post t _ hpre hd,
    Collect_filter_labelled p pf elapsed pre post t _ hpre hd,
    Collect_filter_labelled p pf elapsed pre post t _ hpre hd]
  exact h

/-- C12 on the response `[sampleDisconnected, sampleOffice]`, whose second
thermostat has an actual temperature of 705. -/
theorem C12_runtime_temperatures_witness :
    (Collect (NewEcobeeCollector "ecobee") parseFloatIntegral 1
        ([sampleDisconnected] ++ sampleOffice :: []) none).metrics.filter
      (fun m => decide (m.desc = (NewEcobeeCollector "ecobee").actualTemperature) &&
        labelledBy sampleOffice m) =
      [{ desc := (NewEcobeeCollector "ecobee").actualTemperature, value := (705 : ℚ) / 10,
         labelValues := ["633", "Office"] }] :=
  (C12_runtime_temperatures.2.2.2 "ecobee" parseFloatIntegral 1 [sampleDisconnected] []
    sampleOffice (by decide) rfl (by decide) (by decide)).1

/-- C13: on every scrape, whether the fetch fails or succeeds and whatever it
returns, the first observation of the output is that of `fetch_time`, with the
elapsed time and no label values, and no other observation of `fetch_time` is
sent. -/
theorem C13_fetch_time ( metricPrefix : String) (parseFloat : String → Option ℚ) (elapsed : ℚ)
    (tt : List Thermostat) (err : Option String) :
    (Collect (NewEcobeeCollector metricPrefix) parseFloat elapsed tt err).metrics.head? =
      some { desc := (NewEcobeeCollector metricPrefix).fetchTime, value := elapsed,
             labelValues := [] } ∧
    (Collect (NewEcobeeCollector metricPrefix) parseFloat elapsed tt err).metrics.filter
        (fun m => decide (m.desc = (NewEcobeeCollector metricPrefix).fetchTime)) =
      [{ desc := (NewEcobeeCollector metricPrefix).fetchTime, value := elapsed,
         labelValues := [] }] := by
  cases err with
  | some e =>
    simp [Collect, collectActions, exec, MustNewConstMetric, NewEcobeeCollector, descs.new]
  | none =>
    rw [Collect_metrics_cons]
    refine ⟨rfl, ?_⟩
    simp only [List.filter_cons, decide_True, if_true, List.cons.injEq, true_and]
    rw [List.filter_eq_nil_iff]
    intro m hm hd
    obtain ⟨t, -, hdesc, -⟩ := Collect_tail_mem metricPrefix parseFloat tt m hm
    have hd2 : m.desc = (NewEcobeeCollector metricPrefix).fetchTime := by simpa using hd
    rw [hd2] at hdesc
    rcases hdesc with h | h
    · exact (fetchTime_not_mem metricPrefix).1 h
    · exact (fetchTime_not_mem metricPrefix).2 h

/-- C14: for the response made of one connected thermostat with an empty
forecast list and one remote sensor, `Collect` sends no `in_use` observation
although the response has one remote sensor; on every response in which each
connected thermostat has a forecast, the number of `in_use` observations is
the number of remote sensors, and each sensor's observation carries its flag
and labels. -/
theorem C14_in_use_count :
    inUseCount (NewEcobeeCollector "ecobee")
      (Collect (NewEcobeeCollector "ecobee") parseFloatIntegral 1 [sampleNoForecast]
        none).metrics = 0 ∧
    sensorCount [sampleNoForecast] = 1 ∧
    (∀ ( metricPrefix : String) (parseFloat : String → Option ℚ) (elapsed : ℚ)
        (tt : List Thermostat), (∀ t ∈ tt, t.indexable = true) →
      inUseCount (NewEcobeeCollector metricPrefix)
          (Collect (NewEcobeeCollector metricPrefix) parseFloat elapsed tt none).metrics =
        sensorCount tt) ∧
    (∀ ( metricPrefix : String) (parseFloat : String → Option ℚ) (t : Thermostat),
      t.indexable = true → ∀ s ∈ t.RemoteSensors,
        ({ desc := (NewEcobeeCollector metricPrefix).inUse,
           value := if s.InUse then 1 else 0,
           labelValues := [t.Identifier, t.Name, s.ID, s.Name, s.Type_] } : Metric) ∈
          (collectThermostat (NewEcobeeCollector metricPrefix) parseFloat t).metrics) := by
  refine ⟨by decide, by decide, ?_, ?_⟩
  · intro p pf elapsed tt h
    exact inUseCount_Collect p pf elapsed tt h
  · intro p pf t hi s hs
    have hexec := exec_of_ok _ (thermostatActions_ok p pf t hi)
    rw [collectThermostat, hexec]
    simp only [thermostatActions, List.filterMap_append, List.mem_append]
    right
    exact inUse_mem_sensorMetrics _ pf t s hs

/-- C15: on the response `[sampleNoForecast]`, whose sensor has a temperature
capability with value `"712"`, the scrape ends before the sensor loop and
`Collect` sends no temperature observation. On every response whose
thermostats up to the one of the capability reach their sensor loop, a
`temperature` capability adds to the output of `Collect`, at its place, one
temperature observation with value `n/10` when its value is the base-10
integer literal `n`, and otherwise no observation and one error-level log
entry; the rest of the output is that of the response without the entry. -/
theorem C15_temperature :
    ((Collect (NewEcobeeCollector "ecobee") parseFloatIntegral 1 [sampleNoForecast]
        none).metrics.filter
      (fun m => decide (m.desc = (NewEcobeeCollector "ecobee").temperature)) = []) ∧
    ({ Type_ := "temperature", Value := "712" } : SensorCapability) ∈
      sampleSensor.Capability ∧ sampleSensor ∈ sampleNoForecast.RemoteSensors ∧
    (∀ ( metricPrefix : String) (parseFloat : String → Option ℚ) (elapsed : ℚ)
        (pre post : List Thermostat) (t : Thermostat) (spre spost : List RemoteSensor)
        (s : RemoteSensor) (cpre cpost : List SensorCapability) (sc : SensorCapability),
      (∀ u ∈ pre, u.indexable = true) → t.indexable = true → sc.Type_ = "temperature" →
      ∃ (M1 M2 : List Metric) (L1 L2 : List LogEntry),
        (Collect (NewEcobeeCollector metricPrefix) parseFloat elapsed
            (responseAt pre t post spre s spost (cpre ++ cpost)) none).metrics = M1 ++ M2 ∧
        (Collect (NewEcobeeCollector metricPrefix) parseFloat elapsed
            (responseAt pre t post spre s spost (cpre ++ cpost)) none).logs = L1 ++ L2 ∧
        (∀ n : Int, intLiteral? sc.Value = some n →
          (Collect (NewEcobeeCollector metricPrefix) parseFloat elapsed
              (responseAt pre t post spre s spost (cpre ++ sc :: cpost)) none).metrics =
            M1 ++ [{ desc := (NewEcobeeCollector metricPrefix).temperature,
                     value := (n : ℚ) / 10,
                     labelValues := [t.Identifier, t.Name, s.ID, s.Name, s.Type_] }] ++ M2 ∧
          (Collect (NewEcobeeCollector metricPrefix) parseFloat elapsed
              (responseAt pre t post spre s spost (cpre ++ sc :: cpost)) none).logs =
            L1 ++ L2) ∧
        (intLiteral? sc.Value = none →
          (Collect (NewEcobeeCollector metricPrefix) parseFloat elapsed
              (responseAt pre t post spre s spost (cpre ++ sc :: cpost)) none).metrics =
            M1 ++ M2 ∧
          (Collect (NewEcobeeCollector metricPrefix) parseFloat elapsed
              (responseAt pre t post spre s spost (cpre ++ sc :: cpost)) none).logs =
            L1 ++ [LogEntry.parseIntFailed sc.Value] ++ L2 ∧
          (LogEntry.parseIntFailed sc.Value).level = Level.error)) ∧
    intLiteral? "712" = some 712 ∧ intLiteral? "-5" = some (-5) ∧
    intLiteral? "+12" = some 12 ∧ intLiteral? "70.5" = none ∧ intLiteral? "unknown" = none ∧
    intLiteral? "" = none ∧ intLiteral? "0x10" = none ∧
    intLiteral? "9223372036854775807" = some 9223372036854775807 ∧
    intLiteral? "9223372036854775808" = none := by
  refine ⟨by decide, by decide, by decide, ?_,
    (capability_temperature "ecobee" parseFloatIntegral sampleConnected sampleSensor
      { Type_ := "temperature", Value := "712" } rfl).2.2⟩
  intro p pf elapsed pre post t spre spost s cpre cpost sc hpre ht hT
  obtain ⟨M1, M2, L1, L2, hm, hl, hm0, hl0⟩ :=
    Collect_capability_at p pf elapsed pre post t spre spost s cpre cpost sc hpre ht
  have hcap := capability_temperature p pf t s sc hT
  refine ⟨M1, M2, L1, L2, hm0, hl0, ?_, ?_⟩
  · intro n hn
    rw [hm, hl, hcap.1 n hn]
    simp
  · intro hn
    rw [hm, hl, (hcap.2.1 hn).1]
    exact ⟨by simp, rfl, rfl⟩

/-- C15 on the response made of `sampleConnected` with its sensor holding one
temperature capability of value `"712"`. -/
theorem C15_temperature_witness :
    ({ desc := (NewEcobeeCollector "ecobee").temperature, value := (712 : ℚ) / 10,
       labelValues := ["411", "Home", "rs:100", "Bedroom", "ecobee3_remote_sensor"] } :
        Metric) ∈
      (Collect (NewEcobeeCollector "ecobee") parseFloatIntegral 1
        (responseAt [] sampleConnected [] [] sampleSensor []
          ([] ++ { Type_ := "temperature", Value := "712" } :: [])) none).metrics := by
  obtain ⟨M1, M2, L1, L2, -, -, h, -⟩ :=
    C15_temperature.2.2.2.1 "ecobee" parseFloatIntegral 1 [] [] sampleConnected [] []
      sampleSensor [] [] { Type_ := "temperature", Value := "712" } (by decide) (by decide) rfl
  rw [(h 712 C15_temperature.2.2.2.2.1).1]
  exact List.mem_append_left _ (List.mem_append_right _ (List.mem_singleton.2 rfl))

/-- C16: on the response `[sampleNoForecast, sampleOffice]` the scrape ends at
the first thermostat and `Collect` sends no `currenthvacmode` observation of
the second, a connected thermostat with a forecast. On every response whose
earlier thermostats reach their sensor loop, `Collect` sends for a connected
thermostat with a forecast exactly one `currenthvacmode` observation; its
value is 0 and its label values are the identifier, the name and the HVAC
mode, so replacing the mode alone replaces the third label value alone. -/
theorem C16_currenthvacmode :
    ((Collect (NewEcobeeCollector "ecobee") parseFloatIntegral 1
        [sampleNoForecast, sampleOffice] none).metrics.filter
      (fun m => decide (m.desc = (NewEcobeeCollector "ecobee").currentHvacMode) &&
        labelledBy sampleOffice m) = []) ∧
    (∀ ( metricPrefix : String) (parseFloat : String → Option ℚ) (elapsed : ℚ)
        (pre post : List Thermostat) (t : Thermostat),
      (∀ u ∈ pre, u.indexable = true) → t.Runtime.Connected = true →
      t.Weather.Forecasts ≠ [] →
      (∀ u ∈ pre ++ post, ¬ (u.Identifier = t.Identifier ∧ u.Name = t.Name)) →
      (Collect (NewEcobeeCollector metricPrefix) parseFloat elapsed (pre ++ t :: post)
          none).metrics.filter
        (fun m => decide (m.desc = (NewEcobeeCollector metricPrefix).currentHvacMode) &&
          labelledBy t m) =
        [{ desc := (NewEcobeeCollector metricPrefix).currentHvacMode, value := 0,
           labelValues := [t.Identifier, t.Name, t.Settings.HvacMode] }] ∧
      ∀ mode : String,
        (Collect (NewEcobeeCollector metricPrefix) parseFloat elapsed
            (pre ++ { t with Settings := { HvacMode := mode } } :: post) none).metrics.filter
          (fun m => decide (m.desc = (NewEcobeeCollector metricPrefix).currentHvacMode) &&
            labelledBy t m) =
          [{ desc := (NewEcobeeCollector metricPrefix).currentHvacMode, value := 0,
             labelValues := [t.Identifier, t.Name, mode] }]) := by
  refine ⟨by decide, ?_⟩
  intro p pf elapsed pre post t hpre hc hf hd
  have h := collectThermostat_currenthvacmode p pf t hc hf
  refine ⟨?_, fun mode => ?_⟩
  · rw [Collect_filter_labelled p pf elapsed pre post t _ hpre hd]
    exact h.1
  · have h2 := Collect_filter_labelled p pf elapsed pre post
      { t with Settings := { HvacMode := mode } }
      (fun m => decide (m.desc = (NewEcobeeCollector p).currentHvacMode)) hpre hd
    exact h2.trans (h.2 mode)

/-- C16 on the response `[sampleDisconnected, sampleOffice]`, whose second
thermostat is in mode `"heat"`. -/
theorem C16_currenthvacmode_witness :
    (Collect (NewEcobeeCollector "ecobee") parseFloatIntegral 1
        ([sampleDisconnected] ++ sampleOffice :: []) none).metrics.filter
      (fun m => decide (m.desc = (NewEcobeeCollector "ecobee").currentHvacMode) &&
        labelledBy sampleOffice m) =
      [{ desc := (NewEcobeeCollector "ecobee").currentHvacMode, value := 0,
         labelValues := ["633", "Office", "heat"] }] :=
  (C16_currenthvacmode.2 "ecobee" parseFloatIntegral 1 [sampleDisconnected] []
    sampleOffice (by decide) rfl (by decide) (by decide)).1

/-- C17: on a successful fetch every observation other than `fetch_time`
starts its label values with the identifier and name of a thermostat of the
current response, so no observation carries the labels of an absent
thermostat; and the output is a function of the response: a second scrape of
the same response differs in the `fetch_time` value only. -/
theorem C17_current_response_only ( metricPrefix : String) (parseFloat : String → Option ℚ)
    (elapsed : ℚ) (tt : List Thermostat) :
    (∀ m ∈ (Collect (NewEcobeeCollector metricPrefix) parseFloat elapsed tt none).metrics,
      m.desc ≠ (NewEcobeeCollector metricPrefix).fetchTime →
        ∃ t ∈ tt, m.labelValues.take 2 = [t.Identifier, t.Name]) ∧
    (∀ u : Thermostat, (∀ t ∈ tt, ¬ (t.Identifier = u.Identifier ∧ t.Name = u.Name)) →
      ∀ m ∈ (Collect (NewEcobeeCollector metricPrefix) parseFloat elapsed tt none).metrics,
        m.labelValues.take 2 ≠ [u.Identifier, u.Name]) ∧
    (∀ elapsed2 : ℚ,
      (Collect (NewEcobeeCollector metricPrefix) parseFloat elapsed2 tt none).metrics.tail =
        (Collect (NewEcobeeCollector metricPrefix) parseFloat elapsed tt none).metrics.tail ∧
      (Collect (NewEcobeeCollector metricPrefix) parseFloat elapsed2 tt none).logs =
        (Collect (NewEcobeeCollector metricPrefix) parseFloat elapsed tt none).logs ∧
      (Collect (NewEcobeeCollector metricPrefix) parseFloat elapsed2 tt none).panicked =
        (Collect (NewEcobeeCollector metricPrefix) parseFloat elapsed tt none).panicked) ∧
    (Collect (NewEcobeeCollector metricPrefix) parseFloat elapsed [] none).metrics =
      [{ desc := (NewEcobeeCollector metricPrefix).fetchTime, value := elapsed,
         labelValues := [] }] := by
  refine ⟨?_, ?_, ?_, ?_⟩
  · intro m hm hne
    rw [Collect_metrics_cons] at hm
    rcases List.mem_cons.1 hm with rfl | hm
    · exact absurd rfl hne
    · obtain ⟨t, ht, -, hl⟩ := Collect_tail_mem metricPrefix parseFloat tt m hm
      exact ⟨t, ht, hl⟩
  · intro u hu m hm
    rw [Collect_metrics_cons] at hm
    rcases List.mem_cons.1 hm with rfl | hm
    · simp
    · obtain ⟨t, ht, -, hl⟩ := Collect_tail_mem metricPrefix parseFloat tt m hm
      rw [hl]
      intro h
      simp only [List.cons.injEq, and_true] at h
      exact hu t ht h
  · intro e2
    rw [Collect_metrics_cons, Collect_metrics_cons]
    exact ⟨rfl, rfl, rfl⟩
  · rw [Collect_metrics_cons]
    rfl

/-- C18: the capabilities of a sensor are translated one by one and in order:
the observations for `xs ++ ys` are those for `xs` followed by those for `ys`;
a single capability yields at most one observation; a capability with an
unrecognised type tag yields none and one informational log entry; and a
capability that yields no observation leaves the observations of its siblings
as they are. -/
theorem C18_capabilities_independent ( metricPrefix : String)
    (parseFloat : String → Option ℚ) (t : Thermostat) (s : RemoteSensor) :
    (∀ xs ys : List SensorCapability,
      capabilityMetrics (NewEcobeeCollector metricPrefix) parseFloat
          [t.Identifier, t.Name, s.ID, s.Name, s.Type_] (xs ++ ys) =
        capabilityMetrics (NewEcobeeCollector metricPrefix) parseFloat
          [t.Identifier, t.Name, s.ID, s.Name, s.Type_] xs ++
        capabilityMetrics (NewEcobeeCollector metricPrefix) parseFloat
          [t.Identifier, t.Name, s.ID, s.Name, s.Type_] ys) ∧
    (∀ xs ys : List SensorCapability,
      (exec (sensorActions (NewEcobeeCollector metricPrefix) parseFloat [t.Identifier, t.Name]
          { s with Capability := xs ++ ys })).metrics =
        (exec (sensorActions (NewEcobeeCollector metricPrefix) parseFloat [t.Identifier, t.Name]
          { s with Capability := xs })).metrics ++
        capabilityMetrics (NewEcobeeCollector metricPrefix) parseFloat
          [t.Identifier, t.Name, s.ID, s.Name, s.Type_] ys) ∧
    (∀ sc : SensorCapability,
      (capabilityMetrics (NewEcobeeCollector metricPrefix) parseFloat
          [t.Identifier, t.Name, s.ID, s.Name, s.Type_] [sc]).length ≤ 1) ∧
    (∀ sc : SensorCapability, sc.Type_ ∉ recognisedTypes →
      exec (capabilityActions (NewEcobeeCollector metricPrefix) parseFloat
          [t.Identifier, t.Name, s.ID, s.Name, s.Type_] sc) =
        { metrics := [], logs := [LogEntry.ignoring sc.Type_], panicked := false } ∧
      (LogEntry.ignoring sc.Type_).level = Level.info) ∧
    (∀ (sc : SensorCapability) (pre post : List SensorCapability),
      capabilityMetrics (NewEcobeeCollector metricPrefix) parseFloat
          [t.Identifier, t.Name, s.ID, s.Name, s.Type_] [sc] = [] →
      capabilityMetrics (NewEcobeeCollector metricPrefix) parseFloat
          [t.Identifier, t.Name, s.ID, s.Name, s.Type_] (pre ++ sc :: post) =
        capabilityMetrics (NewEcobeeCollector metricPrefix) parseFloat
          [t.Identifier, t.Name, s.ID, s.Name, s.Type_] (pre ++ post)) := by
  have hs : [t.Identifier, t.Name, s.ID, s.Name, s.Type_].length = 5 := rfl
  refine ⟨fun xs ys => capabilityMetrics_append _ _ _ hs xs ys, ?_, ?_, ?_, ?_⟩
  · intro xs ys
    have hok : ∀ l : List SensorCapability,
        ∀ a ∈ sensorActions (NewEcobeeCollector metricPrefix) parseFloat [t.Identifier, t.Name]
          { s with Capability := l }, a.ok = true :=
      fun l => sensorActions_ok metricPrefix parseFloat [t.Identifier, t.Name] rfl _
    rw [exec_of_ok _ (hok (xs ++ ys)), exec_of_ok _ (hok xs)]
    simp only [capabilityMetrics, exec_capabilities metricPrefix parseFloat _ hs]
    simp [sensorActions, List.flatMap_append, List.filterMap_append, List.filterMap_cons,
      Action.metric?]
  · intro sc
    rw [capabilityMetrics_single]
    exact le_trans (exec_metrics_length_le _) (capabilityActions_sends_le _ _ _ sc)
  · intro sc hsc
    simp only [recognisedTypes, List.mem_cons, List.mem_singleton, List.not_mem_nil, or_false,
      not_or] at hsc
    obtain ⟨h1, h2, h3, h4, h5, h6, h7, h8⟩ := hsc
    simp [capabilityActions, h1, h2, h3, h4, h5, h6, h7, h8, exec, LogEntry.level]
  · intro sc pre post hsc
    have h1 : pre ++ sc :: post = pre ++ ([sc] ++ post) := by simp
    rw [h1, capabilityMetrics_append _ _ _ hs, capabilityMetrics_append _ _ _ hs, hsc,
      capabilityMetrics_append _ _ _ hs]
    simp

/-- C19: on the response `[sampleNoForecast]`, whose sensor has a humidity
capability with value `"45"`, the scrape ends before the sensor loop and
`Collect` sends no humidity observation. On every response whose thermostats
up to the one of the capability reach their sensor loop, a capability of a
float-valued type whose value is not `"unknown"` adds to the output of
`Collect`, at its place, one observation of the descriptor of its type with
value `x` when the value parses as `x`, and otherwise no observation and
error-level log entries, at least one. The descriptors of the six types are
pairwise distinct. -/
theorem C19_float_capabilities :
    ((Collect (NewEcobeeCollector "ecobee") parseFloatIntegral 1 [sampleNoForecast]
        none).metrics.filter
      (fun m => decide (m.desc = (NewEcobeeCollector "ecobee").humidity)) = []) ∧
    ({ Type_ := "humidity", Value := "45" } : SensorCapability) ∈ sampleSensor.Capability ∧
    sampleSensor ∈ sampleNoForecast.RemoteSensors ∧ parseFloatIntegral "45" = some 45 ∧
    (∀ ( metricPrefix : String) (parseFloat : String → Option ℚ) (elapsed : ℚ)
        (pre post : List Thermostat) (t : Thermostat) (spre spost : List RemoteSensor)
        (s : RemoteSensor) (cpre cpost : List SensorCapability) (sc : SensorCapability)
        (td : String × Desc),
      (∀ u ∈ pre, u.indexable = true) → t.indexable = true →
      td ∈ floatCapabilities (NewEcobeeCollector metricPrefix) → sc.Type_ = td.1 →
      sc.Value ≠ "unknown" →
      ∃ (M1 M2 : List Metric) (L1 L2 : List LogEntry),
        (Collect (NewEcobeeCollector metricPrefix) parseFloat elapsed
            (responseAt pre t post spre s spost (cpre ++ cpost)) none).metrics = M1 ++ M2 ∧
        (Collect (NewEcobeeCollector metricPrefix) parseFloat elapsed
            (responseAt pre t post spre s spost (cpre ++ cpost)) none).logs = L1 ++ L2 ∧
        (∀ x : ℚ, parseFloat sc.Value = some x →
          (Collect (NewEcobeeCollector metricPrefix) parseFloat elapsed
              (responseAt pre t post spre s spost (cpre ++ sc :: cpost)) none).metrics =
            M1 ++ [{ desc := td.2, value := x,
                     labelValues := [t.Identifier, t.Name, s.ID, s.Name, s.Type_] }] ++ M2 ∧
          (Collect (NewEcobeeCollector metricPrefix) parseFloat elapsed
              (responseAt pre t post spre s spost (cpre ++ sc :: cpost)) none).logs =
            L1 ++ L2) ∧
        (parseFloat sc.Value = none →
          (Collect (NewEcobeeCollector metricPrefix) parseFloat elapsed
              (responseAt pre t post spre s spost (cpre ++ sc :: cpost)) none).metrics =
            M1 ++ M2 ∧
          ∃ E : List LogEntry, E ≠ [] ∧ (∀ e ∈ E, e.level = Level.error) ∧
            (Collect (NewEcobeeCollector metricPrefix) parseFloat elapsed
                (responseAt pre t post spre s spost (cpre ++ sc :: cpost)) none).logs =
              L1 ++ E ++ L2)) ∧
    (∀ metricPrefix : String,
      ((floatCapabilities (NewEcobeeCollector metricPrefix)).map Prod.snd).Nodup) := by
  refine ⟨by decide, by decide, by decide, by decide, ?_, ?_⟩
  · intro p pf elapsed pre post t spre spost s cpre cpost sc td hpre ht htd hT hV
    obtain ⟨M1, M2, L1, L2, hm, hl, hm0, hl0⟩ :=
      Collect_capability_at p pf elapsed pre post t spre spost s cpre cpost sc hpre ht
    have hcap := capability_float p pf t s sc td htd hT hV
    refine ⟨M1, M2, L1, L2, hm0, hl0, ?_, ?_⟩
    · intro x hx
      rw [hm, hl, hcap.1 x hx]
      simp
    · intro hx
      obtain ⟨h1, h2, h3, -⟩ := hcap.2.1 hx
      refine ⟨by rw [hm, h1]; simp, _, h2, h3, hl⟩
  · intro p
    exact (capability_float p parseFloatIntegral sampleConnected sampleSensor
      { Type_ := "humidity", Value := "45" } ("humidity", (NewEcobeeCollector p).humidity)
      (by simp [floatCapabilities]) rfl (by decide)).2.2

/-- C19 on the response made of `sampleConnected` with its sensor holding one
humidity capability of value `"45"`. -/
theorem C19_float_capabilities_witness :
    ({ desc := (NewEcobeeCollector "ecobee").humidity, value := 45,
       labelValues := ["411", "Home", "rs:100", "Bedroom", "ecobee3_remote_sensor"] } :
        Metric) ∈
      (Collect (NewEcobeeCollector "ecobee") parseFloatIntegral 1
        (responseAt [] sampleConnected [] [] sampleSensor []
          ([] ++ { Type_ := "humidity", Value := "45" } :: [])) none).metrics := by
  obtain ⟨M1, M2, L1, L2, -, -, h, -⟩ :=
    C19_float_capabilities.2.2.2.2.1 "ecobee" parseFloatIntegral 1 [] [] sampleConnected [] []
      sampleSensor [] [] { Type_ := "humidity", Value := "45" }
      ("humidity", (NewEcobeeCollector "ecobee").humidity) (by decide) (by decide)
      (by simp [floatCapabilities]) rfl (by decide)
  rw [(h 45 (by decide)).1]
  exact List.mem_append_left _ (List.mem_append_right _ (List.mem_singleton.2 rfl))

/-- C20: no send of `Collect` has a number of label values that differs from
the number of label names of its descriptor, so every observation sent has
0, 2, 3 or 5 label values according to the group of its descriptor; and in
the constructor the two appends to `runtime` each allocate a fresh array, so
`runtime`, the sensor list and the `equipment_running` list keep their own
contents. -/
theorem C20_label_counts ( metricPrefix : String) (parseFloat : String → Option ℚ)
    (elapsed : ℚ) (tt : List Thermostat) (err : Option String) :
    (∀ a ∈ collectActions (NewEcobeeCollector metricPrefix) parseFloat elapsed tt err,
      a.arityOk = true) ∧
    (∀ m ∈ (Collect (NewEcobeeCollector metricPrefix) parseFloat elapsed tt err).metrics,
      m.labelValues.length = m.desc.variableLabels.length ∧
      (m.desc = (NewEcobeeCollector metricPrefix).fetchTime → m.labelValues.length = 0) ∧
      (m.desc ∈ [ (NewEcobeeCollector metricPrefix).actualTemperature,
                  (NewEcobeeCollector metricPrefix).targetTemperatureMax,
                  (NewEcobeeCollector metricPrefix).targetTemperatureMin,
                  (NewEcobeeCollector metricPrefix).outsideTemp,
                  (NewEcobeeCollector metricPrefix).outsideTempF,
                  (NewEcobeeCollector metricPrefix).auxHeat1,
                  (NewEcobeeCollector metricPrefix).auxHeat2,
                  (NewEcobeeCollector metricPrefix).auxHeat3,
                  (NewEcobeeCollector metricPrefix).compCool1,
                  (NewEcobeeCollector metricPrefix).compCool2,
                  (NewEcobeeCollector metricPrefix).heatPump1,
                  (NewEcobeeCollector metricPrefix).heatPump2,
                  (NewEcobeeCollector metricPrefix).fan ] → m.labelValues.length = 2) ∧
      (m.desc ∈ [ (NewEcobeeCollector metricPrefix).equipmentRunning,
                  (NewEcobeeCollector metricPrefix).currentHvacMode ] →
        m.labelValues.length = 3) ∧
      (m.desc ∈ (NewEcobeeCollector metricPrefix).sensorDescs → m.labelValues.length = 5)) ∧
    constructorLabelSlices.2.1.elems constructorLabelSlices.1 =
      ["thermostat_id", "thermostat_name"] ∧
    constructorLabelSlices.2.2.1.elems constructorLabelSlices.1 =
      ["thermostat_id", "thermostat_name", "sensor_id", "sensor_name", "sensor_type"] ∧
    constructorLabelSlices.2.2.2.elems constructorLabelSlices.1 =
      ["thermostat_id", "thermostat_name", "name"] ∧
    constructorLabelSlices.2.1.array ≠ constructorLabelSlices.2.2.1.array ∧
    constructorLabelSlices.2.1.array ≠ constructorLabelSlices.2.2.2.array ∧
    constructorLabelSlices.2.2.1.array ≠ constructorLabelSlices.2.2.2.array ∧
    (NewEcobeeCollector metricPrefix).actualTemperature.variableLabels =
      constructorLabelSlices.2.1.elems constructorLabelSlices.1 ∧
    (NewEcobeeCollector metricPrefix).inUse.variableLabels =
      constructorLabelSlices.2.2.1.elems constructorLabelSlices.1 ∧
    (NewEcobeeCollector metricPrefix).equipmentRunning.variableLabels =
      constructorLabelSlices.2.2.2.elems constructorLabelSlices.1 := by
  refine ⟨collectActions_arityOk metricPrefix parseFloat elapsed tt err, ?_, by decide,
    by decide, by decide, by decide, by decide, by decide, ?_, ?_, ?_⟩
  · intro m hm
    obtain ⟨a, -, hma, hok⟩ := exec_metrics_mem _ m hm
    have hlen : m.labelValues.length = m.desc.variableLabels.length := by
      cases a with
      | send d v ls =>
        simp only [Action.metric?, Option.some.injEq] at hma
        subst hma
        simpa [Action.ok] using hok
      | log e => simp [Action.metric?] at hma
      | indexOutOfRange => simp [Action.metric?] at hma
    refine ⟨hlen, ?_, ?_, ?_, ?_⟩
    · intro hd
      rw [hlen, hd]
      rfl
    · intro hd
      rw [hlen]
      simp only [List.mem_cons, List.mem_singleton, List.not_mem_nil, or_false] at hd
      rcases hd with h | h | h | h | h | h | h | h | h | h | h | h | h <;> rw [h] <;> rfl
    · intro hd
      rw [hlen]
      simp only [List.mem_cons, List.mem_singleton, List.not_mem_nil, or_false] at hd
      rcases hd with h | h <;> rw [h] <;> rfl
    · intro hd
      rw [hlen, sensorDescs_labels metricPrefix _ hd]
      rfl
  · have h : constructorLabelSlices.2.1.elems constructorLabelSlices.1 = runtimeLabels := by
      decide
    rw [h]; rfl
  · have h : constructorLabelSlices.2.2.1.elems constructorLabelSlices.1 = sensorLabels := by
      decide
    rw [h]; rfl
  · have h : constructorLabelSlices.2.2.2.elems constructorLabelSlices.1 =
        runtimeLabels ++ ["name"] := by decide
    rw [h]; rfl
theorem goAppend_shares_spare_capacity :
    (goAppend (goAppend (goAppend (goLiteral [] ["a", "b"]).1 (goLiteral [] ["a", "b"]).2 ["c"]).1
        (goAppend (goLiteral [] ["a", "b"]).1 (goLiteral [] ["a", "b"]).2 ["c"]).2 ["d"]).1
      (goAppend (goLiteral [] ["a", "b"]).1 (goLiteral [] ["a", "b"]).2 ["c"]).2 ["e"]).1 =
      [["a", "b"], ["a", "b", "c", "e"]] := by
  decide

end Ecobee
